import Mathlib

/-!
Verification development for a static personal-blog repository.

The repository consists of Markdown content documents (front matter plus
body) and a site configuration (`astro.config.mjs` setting `site`, `base`
and `output`).  The build pipeline itself (front-matter parsing, Markdown
rendering, route generation, site building) is provided by the external
static-site framework and is not part of the repository's sources, so it
is modelled here from the specification's component design.  Raw document
text is represented as its list of lines.
-/

namespace StaticBlog

deriving instance DecidableEq for Except

/-! ## Character-level utilities -/

/-- Split a character list at every slash; the slash separators are dropped. -/
def splitSlash : List Char → List (List Char)
  | [] => [[]]
  | c :: cs =>
    if c = '/' then [] :: splitSlash cs
    else
      match splitSlash cs with
      | [] => [[c]]
      | p :: ps => (c :: p) :: ps

/-- Split a character list at the first colon: returns the part before the
colon and the part after it.  `none` when there is no colon. -/
def breakColon : List Char → Option (List Char × List Char)
  | [] => none
  | c :: cs =>
    if c = ':' then some ([], cs)
    else
      match breakColon cs with
      | some (k, rest) => some (c :: k, rest)
      | none => none

/-- Drop a single leading space, if present. -/
def dropOneSpace : List Char → List Char
  | ' ' :: cs => cs
  | cs => cs

/-- Strip one matching pair of surrounding single quotes, if present. -/
def unquoteL : List Char → List Char
  | '\x27' :: rest =>
    if rest.getLast? = some '\x27' then rest.dropLast else '\x27' :: rest
  | cs => cs

/-- Association-list lookup by key (first match wins). -/
def lookupKey (k : String) : List (String × String) → Option String
  | [] => none
  | kv :: rest => if kv.1 = k then some kv.2 else lookupKey k rest

/-- `true` when `needle` occurs as a contiguous run inside `hay`. -/
def infixB (needle : List Char) : List Char → Bool
  | [] => needle.isEmpty
  | h :: t => needle.isPrefixOf (h :: t) || infixB needle t

/-! ## Front-Matter Parser

Modelled from the spec: the framework's front-matter parser is not part of
the repository's sources.  A content file is a leading metadata block
delimited by lines containing only `---`, holding `key: value` pairs
(values written between single quotes), followed by the Markdown body.
Parsing fails when the opening delimiter is present but no closing
delimiter is found, or when the required field `title` is absent; the
optional fields default rather than failing. -/

inductive ParseError where
  | missingClosingDelimiter
  | missingTitle
deriving DecidableEq, Repr

/-- Parse one `key: value` header line: the key is everything before the
first colon, the value is the rest with one leading space and one pair of
surrounding single quotes removed. -/
def parseKV (l : String) : Option (String × String) :=
  match breakColon l.data with
  | some (k, rest) => some (⟨k⟩, ⟨unquoteL (dropOneSpace rest)⟩)
  | none => none

/-- Serialize one metadata entry back to a `key: value` header line. -/
def kvLine (kv : String × String) : String :=
  ⟨kv.1.data ++ ':' :: ' ' :: '\x27' :: (kv.2.data ++ ['\x27'])⟩

/-- Modelled from the spec: re-serialization of a metadata mapping back
into a delimiter-bounded block (spec section 8, round-trip property). -/
def serializeLines (entries : List (String × String)) : List String :=
  "---" :: entries.map kvLine ++ ["---"]

/-- A line is not a front-matter delimiter. -/
def neDelim (x : String) : Bool := x ≠ "---"

/-- Modelled from the spec: the framework's front-matter parser is not in
the repository's sources.  Parse the front matter of a document (given as
its list of lines): returns the metadata mapping together with the body
lines. -/
def parseFrontMatterLines (ls : List String) :
    Except ParseError (List (String × String) × List String) :=
  if ls.head? = some "---" then
    if "---" ∈ ls.tail then
      match lookupKey "title" ((ls.tail.takeWhile neDelim).filterMap parseKV) with
      | some _ =>
        .ok ((ls.tail.takeWhile neDelim).filterMap parseKV,
          (ls.tail.dropWhile neDelim).tail)
      | none => .error .missingTitle
    else .error .missingClosingDelimiter
  else .error .missingTitle

/-- Structured metadata: `title` is required; `description` and `pubDate`
default to the empty string and `heroImage` to `none` when absent. -/
structure Meta where
  title : String
  description : String
  pubDate : String
  heroImage : Option String
deriving DecidableEq, Repr

/-- Modelled from the spec: extraction of structured metadata from a
parsed mapping, applying the spec's defaulting policy for the optional
fields (missing `description`/`pubDate` default to empty, missing
`heroImage` to `none`). -/
def toMeta (entries : List (String × String)) : Option Meta :=
  match lookupKey "title" entries with
  | none => none
  | some t =>
    some ⟨t, (lookupKey "description" entries).getD "",
      (lookupKey "pubDate" entries).getD "", lookupKey "heroImage" entries⟩

/-- The document's header block: the lines between the opening delimiter
and the first closing delimiter (empty when the opening delimiter is
missing). -/
def headerOf (ls : List String) : List String :=
  if ls.head? = some "---" then ls.tail.takeWhile neDelim else []

/-- The document starts with an opening front-matter delimiter. -/
def hasOpening (ls : List String) : Prop := ls.head? = some "---"

/-- A closing front-matter delimiter occurs after the first line. -/
def hasClosing (ls : List String) : Prop := "---" ∈ ls.tail

/-- The required field `title` is absent from the document's header block. -/
def titleAbsent (ls : List String) : Prop :=
  lookupKey "title" ((headerOf ls).filterMap parseKV) = none

instance : Decidable (hasOpening ls) := by unfold hasOpening; infer_instance
instance : Decidable (hasClosing ls) := by unfold hasClosing; infer_instance
instance : Decidable (titleAbsent ls) := by unfold titleAbsent; infer_instance

/-! ## Page Renderer

Modelled from the spec: the framework's Markdown renderer is not part of
the repository's sources.  Headings, list items, emphasis and inline code
are rendered per standard Markdown semantics; lines inside a fenced code
block (opened and closed by lines starting with three backticks) are
passed through verbatim, with no Markdown reinterpretation.  Link syntax
is left as plain text in this minimal model (no claim exercises it). -/

/-- Render the inline Markdown of a single text line: the three flags say
whether we are inside an inline code span, strong emphasis, or emphasis. -/
def inlineMd : Bool → Bool → Bool → List Char → List Char
  | _, _, _, [] => []
  | true, b, i, '`' :: rest => "</code>".data ++ inlineMd false b i rest
  | true, b, i, c :: rest => c :: inlineMd true b i rest
  | false, b, i, '`' :: rest => "<code>".data ++ inlineMd true b i rest
  | false, b, i, '*' :: '*' :: rest =>
    (if b then "</strong>" else "<strong>").data ++ inlineMd false (! b) i rest
  | false, b, i, '*' :: rest =>
    (if i then "</em>" else "<em>").data ++ inlineMd false b (! i) rest
  | false, b, i, c :: rest => c :: inlineMd false b i rest

/-- Render the inline Markdown of a line. -/
def inlineLine (s : String) : String := ⟨inlineMd false false false s.data⟩

/-- Wrap a rendered fragment in an HTML tag. -/
def tagWrap (t : String) (s : String) : String :=
  "<" ++ t ++ ">" ++ s ++ "</" ++ t ++ ">"

/-- Render one Markdown line that is outside any fenced code block. -/
def renderLine (l : String) : String :=
  if "#### ".data.isPrefixOf l.data then tagWrap "h4" (inlineLine ⟨l.data.drop 5⟩)
  else if "### ".data.isPrefixOf l.data then tagWrap "h3" (inlineLine ⟨l.data.drop 4⟩)
  else if "## ".data.isPrefixOf l.data then tagWrap "h2" (inlineLine ⟨l.data.drop 3⟩)
  else if "# ".data.isPrefixOf l.data then tagWrap "h1" (inlineLine ⟨l.data.drop 2⟩)
  else if "- ".data.isPrefixOf l.data then tagWrap "li" (inlineLine ⟨l.data.drop 2⟩)
  else if l = "" then ""
  else tagWrap "p" (inlineLine l)

/-- A line opens or closes a fenced code block. -/
def isFence (l : String) : Bool := "```".data.isPrefixOf l.data

/-- Modelled from the spec: the framework's Markdown renderer is not in
the repository's sources.  Render the body lines to HTML lines; the flag
says whether we are inside a fenced code block, whose lines are emitted
verbatim. -/
def renderLines : Bool → List String → List String
  | _, [] => []
  | false, l :: ls =>
    if isFence l then "<pre><code>" :: renderLines true ls
    else renderLine l :: renderLines false ls
  | true, l :: ls =>
    if isFence l then "</code></pre>" :: renderLines false ls
    else l :: renderLines true ls

/-- The lines lying inside fenced code blocks of a body. -/
def fencedLines : Bool → List String → List String
  | _, [] => []
  | false, l :: ls =>
    if isFence l then fencedLines true ls else fencedLines false ls
  | true, l :: ls =>
    if isFence l then fencedLines false ls else l :: fencedLines true ls

/-- Join lines into a single newline-separated string. -/
def joinNL : List String → String
  | [] => ""
  | [l] => l
  | l :: m :: ls => l ++ "\n" ++ joinNL (m :: ls)

/-- Modelled from the spec: the rendered HTML of a body, as a single
newline-joined string. -/
def htmlOf (body : List String) : String :=
  joinNL (renderLines false body)

/-! ## Data model and Route Generator

Modelled from the spec: the framework's route generator is not part of
the repository's sources.  Each document maps to the canonical output
path `{basePath}/{slug}/index.html`; the slug is the document's file name
with its extension stripped, and the base path is normalized so the
resulting path has no duplicate slashes, for any configured value. -/

inductive OutputMode where
  | static
  | server
deriving DecidableEq, Repr

structure SiteConfig where
  siteUrl : String
  basePath : String
  outputMode : OutputMode
deriving DecidableEq, Repr

/-- A content document: its file identifier and its raw text, represented
as the file's list of lines. -/
structure ContentDocument where
  filePath : String
  text : List String
deriving DecidableEq, Repr

structure RenderedPage where
  outputPath : String
  html : String
deriving DecidableEq, Repr

/-- Strip the (last) extension from a file name. -/
def stripExtL (cs : List Char) : List Char :=
  if '.' ∈ cs then ((cs.reverse.dropWhile (fun c => c ≠ '.')).drop 1).reverse
  else cs

/-- The last slash-separated segment of a path. -/
def lastSeg (cs : List Char) : List Char :=
  ((splitSlash cs).getLast?).getD []

/-- Modelled from the spec: the slug of a document, its file name with
the extension stripped. -/
def slugOf (p : String) : String := ⟨stripExtL (lastSeg p.data)⟩

/-- Modelled from the spec: normalization of a configured base path into
its list of nonempty segments (no duplicate slashes survive). -/
def normalizeBase (b : String) : List String :=
  ((splitSlash b.data).filter (fun seg => ! seg.isEmpty)).map (fun seg => (⟨seg⟩ : String))

/-- The characters of a path assembled from segments, one leading slash
per segment. -/
def pathChars (segs : List String) : List Char :=
  (segs.map (fun s => '/' :: s.data)).flatten

/-- The path string assembled from segments. -/
def pathString (segs : List String) : String := ⟨pathChars segs⟩

/-- Modelled from the spec: the route generator is not in the
repository's sources.  The output route of a document, as path segments:
the normalized base followed by the slug and `index.html`. -/
def routeSegments (cfg : SiteConfig) (d : ContentDocument) : List String :=
  normalizeBase cfg.basePath ++ [slugOf d.filePath, "index.html"]

/-- Modelled from the spec: the canonical output path
`{basePath}/{slug}/index.html` of a document. -/
def routePath (cfg : SiteConfig) (d : ContentDocument) : String :=
  pathString (routeSegments cfg d)

/-- Modelled from the spec: the rendered page of a document, its
canonical output path and the HTML of its body.  Derived
deterministically from the one document and the site configuration. -/
def renderDoc (cfg : SiteConfig) (d : ContentDocument) : RenderedPage :=
  match parseFrontMatterLines d.text with
  | .ok (_, body) => ⟨routePath cfg d, htmlOf body⟩
  | .error _ => ⟨routePath cfg d, ""⟩

/-! ## Site Builder

Modelled from the spec: the framework's build orchestration is not part
of the repository's sources.  The builder walks the content store in
order, fails fast with the offending file identifier when a document
fails to parse or when two documents resolve to the same route, and
otherwise produces one rendered page per document.  An error aborts the
whole build: no pages are produced. -/

inductive BuildError where
  | malformedFrontMatter (file : String) (e : ParseError)
  | duplicateRoute (file : String)
  | missingAsset (file : String)
  | ioFailure (file : String)
deriving DecidableEq, Repr

/-- Modelled from the spec: the framework's build orchestration is not in
the repository's sources.  The builder's traversal; `seen` accumulates
the slugs already routed (two documents collide on output path exactly
when they share a slug). -/
def buildGo (cfg : SiteConfig) (seen : List String) :
    List ContentDocument → Except BuildError (List RenderedPage)
  | [] => .ok []
  | d :: ds =>
    match parseFrontMatterLines d.text with
    | .error e => .error (.malformedFrontMatter d.filePath e)
    | .ok _ =>
      if slugOf d.filePath ∈ seen then .error (.duplicateRoute d.filePath)
      else
        match buildGo cfg (slugOf d.filePath :: seen) ds with
        | .error e => .error e
        | .ok pages => .ok (renderDoc cfg d :: pages)

/-- Modelled from the spec: build the whole site from a configuration and
a content store; any error aborts the build with no output. -/
def buildSite (cfg : SiteConfig) (docs : List ContentDocument) :
    Except BuildError (List RenderedPage) :=
  buildGo cfg [] docs

/-! ## The repository's configuration (from `src/astro.config.mjs`) -/

/-- The site configuration of `src/astro.config.mjs`: site
`https://daniela-veloz.github.io`, base `/daniela.veloz/` (matching the
repository name), static output. -/
def siteConfig : SiteConfig :=
  { siteUrl := "https://daniela-veloz.github.io"
    basePath := "/daniela.veloz/"
    outputMode := .static }

/-! ## The repository's content store

The three Markdown documents of the repository, embedded line by line.
Two of them are stored without their original file names in this
snapshot; their file identifiers below record their position in the
snapshot.  The third keeps its real path. -/

def aboutText : List String :=
  [ "---"
  , "title: \x27\x27"
  , "description: \x27Welcome to my blog - an introduction to who I am and what you can expect here\x27"
  , "pubDate: \x27Dec 10 2025\x27"
  , "heroImage: \x27../../assets/blog-placeholder-2.jpg\x27"
  , "---"
  , ""
  , "Hello!! Welcome to my little technical corner on the internet."
  , ""
  , "## Who Am I?"
  , ""
  , "I\x27m Daniela, a software engineer who\x27s passionate about learning and sharing knowledge. Like many dev, my journey "
  , "in tech has been filled with moments of confusion, breakthrough realizations, and the satisfaction of finally "
  , "getting something to work after hours of debugging."
  , ""
  , "## Why This Blog?"
  , ""
  , "I started this blog for a few reasons:"
  , ""
  , "**To document my learning journey.** Writing about what I learn helps me understand it and digestive it better. "
  , "If I can explain something clearly, it means I actually get it."
  , ""
  , "**To share discoveries.** When I find a solution to a tricky problem or learn something interesting, I want to share it. "
  , "Maybe it\x27ll help someone else who\x27s stuck on the same thing I was or that can save some else some time in future."
  , ""
  , "**To keep it real.** Everything you\x27ll read here is written by me, not AI. In an world full of AI-created content,"
  , "creating something with your own thoughts, critical mind and soul takes so much more relevance. "
  , ""
  , "## What to Expect"
  , ""
  , "I\x27ll be writing about:"
  , ""
  , "- **Go/Python and systems programming** - Building things from scratch to understand how they work"
  , "- **AI/data engineering** - Frameworks, projects, and technologies"
  , "- **Learning in public** - Sharing my mistakes and what I learned from them"
  , "- **Development experiences** - Real projects, real challenges, real solutions"
  , ""
  , "I won\x27t pretend to be an expert on everything. Many times I\x27ll be writing about things I\x27m learning\x27. "
  , "Sometimes I\x27ll be wrong, and that\x27s okay. This is a learning space."
  , ""
  , "## A Note on Writing"
  , ""
  , "I believe in the value of human-written content. I\x27m committed to writing my own thoughts in my own words. This means:"
  , ""
  , "- Posts might take longer to come out"
  , "- The writing might not be perfect. But it\x27ll be authentic"
  , ""
  , "## Let\x27s Connect"
  , ""
  , "If something I write resonates with you, or if you have thoughts to share, I\x27d love to hear from you. Learning is better together."
  , ""
  , "Thanks for stopping by!"
  , ""
  , "\u00e2\u20ac\u201d Daniela"
  ]

def shellV1Text : List String :=
  [ "---"
  , "title: \x27Build Your Own Shell in Go\x27"
  , "description: \x27Learn how to create a functional command-line shell from scratch using Go\x27"
  , "pubDate: \x27Dec 11 2025\x27"
  , "heroImage: \x27../../assets/blog-placeholder-1.jpg\x27"
  , "---"
  , ""
  , "A couple of weeks ago, I started learning Go. This is a language I\x27ve been wanting to learn for a while, and now "
  , "I have a need for it! so I took a couple of tutorials, but because learning is better when you build something, "
  , "I decided to learn by building my own shell."
  , ""
  , "Please note that this will be a very simple shell, but strong enough to:"
  , ""
  , "1. help you get started or get better at Go"
  , "2. understand how your terminal actually works"
  , ""
  , "In this post, I\x27ll walk you through creating a basic but functional shell in Go."
  , ""
  , "## What is a Shell?"
  , ""
  , "A shell is a program that takes commands from the keyboard and gives them to the operating system to perform. "
  , "It\x27s the interface between you and the operating system. Popular shells include bash, zsh, and fish."
  , ""
  , "## What We Will Build"
  , ""
  , "We will build a shell following these steps:"
  , ""
  , "1. building the simplest possible shell"
  , "2. add validation for non-existing commands"
  , "3. extend to support commands with arguments"
  , "4. add built-in commands for like for `cd`"
  , "5. add support for pipes"
  , "6. handle signals like `CTRL+C`"
  , "7. extend to support history"
  , ""
  , "Don\x27t worry if some of these terms sound unfamiliar,I try to cover everything step by step. Let\x27s get started!"
  , ""
  , "## Building the Simplest Possible Shell"
  , ""
  , "We will build the simplest possible shell first and add on top of it. For a simple shell, it should be able to receive "
  , "commands and use our OS to execute them."
  , ""
  , "#### Reading Input"
  , ""
  , "We use a while loop (while loops don\x27t exist in Go, so we use an infinite for loop) using [bufio](https://pkg.go.dev/bufio) "
  , "to read from the standard input (os.Stdin)."
  , ""
  , "#### Exit Support"
  , ""
  , "Even if this is the simplest shell, we need to provide a way to terminate the program, so we\x27re adding an "
  , "\x27exit\x27 custom command."
  , ""
  , "#### Executing Commands"
  , ""
  , "To execute commands we will use the `os/exec` package. We need to send it the command, but we also need to wire up "
  , "the standard streams (stdout and stderr)."
  , ""
  , "```go"
  , "    cmd.Stdout = os.Stdout"
  , "    cmd.Stderr = os.Stderr"
  , "```"
  , ""
  , "These two lines handle stream redirection, which is a fundamental concept in Unix-like systems. "
  , "Every process has three standard streams:"
  , ""
  , "- **stdin** (standard input) - where input comes from"
  , "- **stdout** (standard output) - where normal output goes"
  , "- **stderr** (standard error) - where error messages go"
  , ""
  , "By assigning os.Stdout and os.Stderr to our command\x27s output streams, we\x27re telling Go: "
  , "\"Whatever this command prints, send it directly to the terminal.\" Without this wiring, the command\x27s output "
  , "would be lost in the void."
  , ""
  , "Here\x27s our simplest shell so far:"
  , ""
  , "```go"
  , "import ("
  , "\t\"bufio\""
  , "\t\"fmt\""
  , "\t\"os\""
  , "\t\"os/exec\""
  , "\t\"strings\""
  , ")"
  , ""
  , "func main() \x7b"
  , "\t// read a line of input from the user standard input"
  , "\treader := bufio.NewReader(os.Stdin)"
  , ""
  , "\tfor \x7b"
  , "\t\t// display the prompt"
  , "\t\tfmt.Print(\"> \")"
  , "\t\t// read the input"
  , "\t\tinput, _ := reader.ReadString(\x27\\n\x27)"
  , "\t\tinput = strings.TrimSpace(input)"
  , ""
  , "\t\tif input == \"exit\" \x7b"
  , "\t\t\tos.Exit(0)"
  , "\t\t\x7d"
  , "\t\t// run command"
  , "\t\tcmd := exec.Command(input)"
  , "\t\tcmd.Stdout = os.Stdout"
  , "\t\tcmd.Stderr = os.Stderr"
  , "\t\tcmd.Run()"
  , "\t\x7d"
  , "\x7d"
  , "```"
  ]

def shellV2Text : List String :=
  [ "---"
  , "title: \x27Build Your Own Shell in Go\x27"
  , "description: \x27Learn how to create a functional command-line shell from scratch using Go\x27"
  , "pubDate: \x27Dec 11 2025\x27"
  , "heroImage: \x27../../assets/blog-placeholder-1.jpg\x27"
  , "---"
  , ""
  , "A couple of weeks ago, I started learning Go. This is a language I\x27ve been wanting to learn for a while, and now"
  , "I have a need for it! So I took a couple of tutorials, but because learning is better when you build something,"
  , "I decided to learn by building my own shell."
  , ""
  , "Please note that this will be a simple shell, but strong enough to:"
  , ""
  , "1. help you get started or get better at Go"
  , "2. understand how your terminal actually works"
  , ""
  , "In this post, I\x27ll walk you through creating a basic but functional shell in Go."
  , ""
  , "## What is a Shell?"
  , ""
  , "A shell is a program that takes commands from the keyboard and gives them to the operating system to perform. "
  , "It\x27s the interface between you and the operating system. Popular shells include bash, zsh, and fish."
  , ""
  , "## What We Will Build"
  , ""
  , "We will build a shell following these steps:"
  , ""
  , "1. Building the simplest possible shell"
  , "2. Adding support for arguments"
  , "3. Adding built-in commands like `cd`"
  , "4. Adding support for piped commands"
  , "5. Handling signals like `CTRL+C`"
  , "6. Adding command history support"
  , ""
  , "Don\x27t worry if some of these terms sound unfamiliar, I try to cover everything step by step. Let\x27s get started!"
  , ""
  , "## 1. Building the Simplest Possible Shell"
  , ""
  , "We will build the simplest possible shell first and add on top of it. For a simple shell, it should be able to receive "
  , "commands and use our OS to execute them."
  , ""
  , "#### Reading Input"
  , ""
  , "We want to be able to execute one command after another, so we will use an infinite loop that is constantly reading commands"
  , "and executing them"
  , ""
  , "#### Exit Support"
  , ""
  , "Even if this is the simplest shell, we need to provide a way to terminate the program, so we\x27re adding an "
  , "\x27exit\x27 custom command."
  , ""
  , "#### Executing Commands"
  , ""
  , "To execute commands we will use the `os/exec` package. We need to send the command, but we also need to wire up "
  , "the standard streams (stdout and stderr)."
  , ""
  , "```go"
  , "    cmd.Stdout = os.Stdout"
  , "    cmd.Stderr = os.Stderr"
  , "```"
  , ""
  , "These two lines handle stream redirection, which is a fundamental concept in Unix-like systems. "
  , "Every process has three standard streams:"
  , ""
  , "- **stdin** (standard input) - where input comes from"
  , "- **stdout** (standard output) - where normal output goes"
  , "- **stderr** (standard error) - where error messages go"
  , ""
  , "By assigning os.Stdout and os.Stderr to our command\x27s output streams, we\x27re telling Go: "
  , "\"Whatever this command prints, send it directly to the terminal.\" Without this wiring, the command\x27s output "
  , "would be lost in the void. "
  , ""
  , "We will also catch the exception, then if a user types a command that doesn\x27t exist our own OS will throw an error."
  , ""
  , "Here\x27s our simplest shell so far:"
  , ""
  , "```go"
  , "package main"
  , ""
  , "import ("
  , "\t\"bufio\""
  , "\t\"fmt\""
  , "\t\"os\""
  , "\t\"os/exec\""
  , "\t\"strings\""
  , ")"
  , ""
  , "func main() \x7b"
  , ""
  , "\t// read a line of input from the user"
  , "\treader := bufio.NewReader(os.Stdin)"
  , "\tfor \x7b"
  , "\t\t// display the prompt"
  , "\t\tfmt.Print(\"> \")"
  , "\t\tinput, _ := reader.ReadString(\x27\\n\x27)"
  , "\t\tinput = strings.TrimSpace(input)"
  , ""
  , "\t\tif input == \"exit\" \x7b"
  , "\t\t\tos.Exit(0)"
  , "\t\t\x7d"
  , "\t\tif input == \"\" \x7b"
  , "\t\t\tcontinue"
  , "\t\t\x7d"
  , "\t\t// run command"
  , "\t\tcmd := exec.Command(input)"
  , "\t\tcmd.Stdout = os.Stdout"
  , "\t\tcmd.Stderr = os.Stderr"
  , "\t\terr := cmd.Run()"
  , "\t\tif err != nil \x7b"
  , "\t\t\tfmt.Println(err)"
  , "\t\t\x7d"
  , "\t\x7d"
  , ""
  , "\x7d"
  , "```"
  , ""
  , "## 2. Add Support for Arguments"
  , "Next, we will extend our shell to support arguments, for example it should support commands like `ls -ltr`. For that, we will"
  , "simply split the input by spaces, the first string in the array will be the command and the rest will be the arguments. "
  , "That would be something like this:"
  , ""
  , "```go"
  , "args := strings.Fields(input)"
  , "cmd := exec.Command(args[0], args[1:]...)"
  , "```"
  , ""
  , "As the shell is starting to get bigger, let\x27s add a function to handle all the input parsing. This is how"
  , "our shell looks so far:"
  , ""
  , "```go"
  , "package main"
  , ""
  , "import ("
  , "\t\"bufio\""
  , "\t\"fmt\""
  , "\t\"os\""
  , "\t\"os/exec\""
  , "\t\"strings\""
  , ")"
  , ""
  , "func parseInput(input string) (string, []string) \x7b"
  , "\t// remove empty spaces from the input"
  , "\tinput = strings.TrimSpace(input)"
  , ""
  , "\t// split input"
  , "\tparts := strings.Fields(input)"
  , ""
  , "\tif len(parts) == 0 \x7b"
  , "\t\treturn \"\", nil"
  , "\t\x7d"
  , ""
  , "\t// create commands, first string is the command and the rest are arguments"
  , "\tcommand := parts[0]"
  , "\targs := parts[1:]"
  , ""
  , "\treturn command, args"
  , "\x7d"
  , ""
  , "func main() \x7b"
  , ""
  , "\t// read a line of input from the user"
  , "\treader := bufio.NewReader(os.Stdin)"
  , ""
  , "\tfor \x7b"
  , "\t\t// display the prompt"
  , "\t\tfmt.Print(\"> \")"
  , "\t\tinput, _ := reader.ReadString(\x27\\n\x27)"
  , "\t\tcommand, args := parseInput(input)"
  , "\t\t"
  , "\t\tif command == \"exit\" \x7b"
  , "\t\t\tos.Exit(0)"
  , "\t\t\x7d"
  , "\t\tif command == \"\" \x7b"
  , "\t\t\tcontinue"
  , "\t\t\x7d"
  , "\t\t// run command"
  , "\t\tcmd := exec.Command(command, args...)"
  , "\t\tcmd.Stdout = os.Stdout"
  , "\t\tcmd.Stderr = os.Stderr"
  , "\t\terr := cmd.Run()"
  , "\t\tif err != nil \x7b"
  , "\t\t\tfmt.Println(err)"
  , "\t\t\x7d"
  , "\t\x7d"
  , "\x7d"
  , "```"
  , ""
  , "## 3. Add Support for Built-in Commands"
  , "When we execute a regular command like ls or grep, our shell:"
  , "1. Creates a child process (fork)"
  , "2. The child process runs the command"
  , "3. The child process exits"
  , ""
  , "Any changes the child process makes to its environment (like current working directory) only affect that child process,"
  , "not the parent shell. Hence, commands like `cd`, `exit`, `alias`, `source`, etc need to be implemented as "
  , "built-in commands that run directly in the parent shell process. "
  , ""
  , "For our shell, we will only implement `cd` but the other commands could be implemented in a similar fashion. For that let\x27s"
  , "use `os.Chdir(path)`. Also, note that now we need to define a flow for built-in commands and non-builtin commands, we will"
  , "do that using a switch "
  , ""
  , "This is how our shell looks so far."
  , ""
  , "```go"
  , "package main"
  , ""
  , "import ("
  , "\t\"bufio\""
  , "\t\"fmt\""
  , "\t\"os\""
  , "\t\"os/exec\""
  , "\t\"strings\""
  , ")"
  , ""
  , "func parseInput(input string) (string, []string) \x7b"
  , "\t// remove empty spaces from the input"
  , "\tinput = strings.TrimSpace(input)"
  , ""
  , "\t// split input"
  , "\tparts := strings.Fields(input)"
  , ""
  , "\tif len(parts) == 0 \x7b"
  , "\t\treturn \"\", nil"
  , "\t\x7d"
  , ""
  , "\t// create commands, first string is the command and the rest are arguments"
  , "\tcommand := parts[0]"
  , "\targs := parts[1:]"
  , ""
  , "\treturn command, args"
  , "\x7d"
  , ""
  , "func executeCdCommand(args []string) \x7b"
  , "\tvar path string"
  , "\tif len(args) == 0 \x7b"
  , "\t\tpath = os.Getenv(\"HOME\")"
  , "\t\x7d else \x7b"
  , "\t\tpath = args[0]"
  , "\t\x7d"
  , "\terr := os.Chdir(path)"
  , "\tif err != nil \x7b"
  , "\t\tfmt.Println(err.Error())"
  , "\t\x7d"
  , "\x7d"
  , ""
  , "func executeNotBuiltInCommand(command string, args []string) \x7b"
  , "\tcmd := exec.Command(command, args...)"
  , "\tcmd.Stdout = os.Stdout"
  , "\tcmd.Stderr = os.Stderr"
  , ""
  , "\terr := cmd.Run()"
  , "\tif err != nil \x7b"
  , "\t\tfmt.Println(err.Error())"
  , "\t\x7d"
  , "\x7d"
  , ""
  , "func main() \x7b"
  , ""
  , "\t// read a line of input from the user"
  , "\treader := bufio.NewReader(os.Stdin)"
  , ""
  , "\tfor \x7b"
  , "\t\tfmt.Print(\"> \")"
  , "\t\tinput, _ := reader.ReadString(\x27\\n\x27)"
  , "\t\tcommand, args := parseInput(input)"
  , ""
  , "\t\tswitch command \x7b"
  , "\t\tcase \"\":"
  , "\t\t\tcontinue"
  , "\t\tcase \"exit\":"
  , "\t\t\tos.Exit(0)"
  , "\t\tcase \"cd\":"
  , "\t\t\texecuteCdCommand(args)"
  , "\t\tdefault:"
  , "\t\t\texecuteNotBuiltInCommand(command, args)"
  , "\t\t\x7d"
  , "\t\x7d"
  , "\x7d"
  , "```"
  , ""
  , "## 4. Add Support for Piped Commands"
  , "In Unix shells, the pipe operator `|` lets you chain commands together, feeding one command\x27s output into the next, so"
  , "if we run `ls -l | grep \"txt\" | wc -l`, this counts how many .txt files are in a directory by:"
  , "1. Listing files (ls -l)"
  , "2. Filtering for \"txt\" (grep \"txt\")"
  , "3. Counting the results (wc -l)"
  , ""
  , "The challenge now, is that our current shell only supports one command at a time. To support pipes, we will"
  , "need to:"
  , ""
  , "1. Parse multiple commands separated by |"
  , "2. Connect them so output flows from one to the next"
  , "3. Handle special cases (like builtin commands that shouldn\x27t be piped) "
  , ""
  , "We will do the following changes:"
  , "1. Commands Become structs:  Instead of just strings, each command is now a structured object. This makes it easier to work"
  , "with multiple commands"
  , "   ```go"
  , "   type Command struct \x7b"
  , "       name string"
  , "       args []string"
  , "   \x7d"
  , "   ```"
  , ""
  , "2. Smart Parsing: When we type `ls | grep txt`, the parser should split on | and creates two Command objects."
  , "   ```go"
  , "   func parseInput(input string) ([]Command, error) \x7b"
  , "     pipedInputs := strings.Split(input, \"|\")"
  , "     // ... build a Command for each part"
  , "   \x7d"
  , "   ```"
  , ""
  , "3. Pipeline Execution: this is where most of the pipe logic will reside:"
  , "   - if there is just one command -> run it normally"
  , "   - if there are multiple -> connect their inputs/outputs like a chain"
  , "    "
  , "4. Protect Builtin commands: In our shell builtin commands will not be chainable, for example, you can\x27t pipe `cd` or"
  , "`exit`"
  , ""
  , "### Understanding Input/Output Chaining"
  , ""
  , "When we chain commands with pipes, we\x27re connecting their standard streams. Here\x27s how it works:"
  , ""
  , "When you create a pipe, you get two ends:"
  , "- A write end (output)"
  , "- A read end (input)"
  , ""
  , "**Building the Chain**"
  , ""
  , "For a command like `ls | grep txt | wc -l`, we need to:"
  , ""
  , "1. **Create pipes between commands:**"
  , "   ```"
  , "   ls \u2192 [pipe1] \u2192 grep txt \u2192 [pipe2] \u2192 wc -l"
  , "   ```"
  , ""
  , "2. **Connect stdout to stdin:**"
  , "   - `ls` writes to pipe1 (stdout \u2192 pipe1.write)"
  , "   - `grep` reads from pipe1 and writes to pipe2 (pipe1.read \u2192 stdin, stdout \u2192 pipe2.write)"
  , "   - `wc` reads from pipe2 (pipe2.read \u2192 stdin)"
  , ""
  , "3. **Terminal connections:**"
  , "   - First command (`ls`) reads from terminal stdin"
  , "   - Last command (`wc -l`) writes to terminal stdout"
  , "   - Any errors go to terminal stderr"
  , ""
  , "**In Go:**"
  , "```go"
  , "// Get output pipe from first command"
  , "stdout, _ := cmds[0].StdoutPipe()"
  , "// Connect it to input of second command"
  , "cmds[1].Stdin = stdout"
  , "```"
  , ""
  , "This creates a direct channel where bytes written to `cmds[0].Stdout` become available to read from `cmds[1].Stdin`."
  , ""
  , "### Use Start() instead of Run()"
  , "One additional change that we need to make is to migrate to use `cmd.Start()` (non-blocking) because all commands must"
  , "run simultaneously. If we used `Run()` (blocking last implementation), the first command would finish completely "
  , "before the second one starts, breaking the pipe connection."
  , ""
  , "Here is the pipes implementation"
  , ""
  , "```go"
  , "package main"
  , ""
  , "import ("
  , "\t\"bufio\""
  , "\t\"fmt\""
  , "\t\"os\""
  , "\t\"os/exec\""
  , "\t\"strings\""
  , ")"
  , ""
  , "type Command struct \x7b"
  , "\tname string"
  , "\targs []string"
  , "\x7d"
  , ""
  , "func parseInput(input string) ([]Command, error) \x7b"
  , "\t// remove empty spaces from the input"
  , "\tinput = strings.TrimSpace(input)"
  , "\tif input == \"\" \x7b"
  , "\t\treturn []Command\x7b\x7d, nil"
  , "\t\x7d"
  , ""
  , "\t// split input by |"
  , "\tpipedInputs := strings.Split(input, \"|\")"
  , "\tcommands := make([]Command, 0, len(pipedInputs))"
  , ""
  , "\t// per each piped command identify command and args"
  , "\tfor _, pipedInput := range pipedInputs \x7b"
  , "\t\tpipedInput := strings.TrimSpace(pipedInput)"
  , "\t\tparts := strings.Fields(pipedInput)"
  , ""
  , "\t\tif len(parts) == 0 \x7b"
  , "\t\t\treturn []Command\x7b\x7d, fmt.Errorf(\"invalid input: %s\", pipedInput)"
  , "\t\t\x7d"
  , "\t\tcommand := parts[0]"
  , "\t\targs := parts[1:]"
  , "\t\tcommands = append(commands, Command\x7bcommand, args\x7d)"
  , "\t\x7d"
  , "\treturn commands, nil"
  , "\x7d"
  , ""
  , "/*"
  , "*"
  , "function to execute \"cd\" as a built-in command"
  , "*/"
  , "func executeCdCommand(args []string) error \x7b"
  , "\tvar path string"
  , "\tif len(args) == 0 \x7b"
  , "\t\tpath = os.Getenv(\"HOME\")"
  , "\t\x7d else \x7b"
  , "\t\tpath = args[0]"
  , "\t\x7d"
  , "\treturn os.Chdir(path)"
  , "\x7d"
  , ""
  , "/*"
  , "*"
  , "function execute commands using computer os"
  , "*/"
  , "func executeNotBuiltInCommand(command string, args []string) error \x7b"
  , "\tcmd := exec.Command(command, args...)"
  , "\tcmd.Stdout = os.Stdout"
  , "\tcmd.Stderr = os.Stderr"
  , ""
  , "\treturn cmd.Run()"
  , "\x7d"
  , ""
  , "/*"
  , "*"
  , "function to execute single command. Built-in commands cannot be part of pipes"
  , "*/"
  , "func executeSingleCommand(command Command) error \x7b"
  , "\tswitch command.name \x7b"
  , "\tcase \"\":"
  , "\t\treturn nil"
  , "\tcase \"exit\":"
  , "\t\tos.Exit(0)"
  , "\t\treturn nil"
  , "\tcase \"cd\":"
  , "\t\treturn executeCdCommand(command.args)"
  , "\tdefault:"
  , "\t\treturn executeNotBuiltInCommand(command.name, command.args)"
  , "\t\x7d"
  , "\x7d"
  , ""
  , "/*"
  , "*"
  , "Function to execute a piped command"
  , "*/"
  , "func executePipeline(commands []Command) error \x7b"
  , "\tif len(commands) == 0 \x7b"
  , "\t\treturn nil"
  , "\t\x7d"
  , "\tif len(commands) == 1 \x7b"
  , "\t\treturn executeSingleCommand(commands[0])"
  , "\t\x7d"
  , "\t// Check for built-in commands in pipeline"
  , "\tfor _, cmd := range commands \x7b"
  , "\t\tif cmd.name == \"cd\" || cmd.name == \"exit\" \x7b"
  , "\t\t\treturn fmt.Errorf(\"cannot use built-in command \x27%s\x27 in pipeline\", cmd.name)"
  , "\t\t\x7d"
  , "\t\x7d"
  , ""
  , "\t// create commands"
  , "\tvar cmds []*exec.Cmd //slice of pointers to exec.Cmd so we can modify them later"
  , "\tfor _, command := range commands \x7b"
  , "\t\tcmd := exec.Command(command.name, command.args...)"
  , "\t\tcmds = append(cmds, cmd)"
  , "\t\x7d"
  , ""
  , "\t// Connect the output of each command to the input of the next command"
  , "\t// the last command has no \"next\" command to connect to"
  , "\tfor i := 0; i < len(cmds)-1; i++ \x7b"
  , "\t\tstdout, err := cmds[i].StdoutPipe()"
  , "\t\tif err != nil \x7b"
  , "\t\t\treturn err"
  , "\t\t\x7d"
  , "\t\tcmds[i+1].Stdin = stdout"
  , "\t\x7d"
  , ""
  , "\t// Set first command stdin and last command stdout to the terminal"
  , "\tcmds[0].Stdin = os.Stdin"
  , "\tcmds[len(cmds)-1].Stdout = os.Stdout"
  , "\tcmds[len(cmds)-1].Stderr = os.Stderr"
  , ""
  , "\t// Start all commands"
  , "\t// we use use Start(non-blocking) instead of Run(blocking), we need all cmds running in parallel so next command"
  , "\t// can read from the prev pipe"
  , "\tfor _, cmd := range cmds \x7b"
  , "\t\tif err := cmd.Start(); err != nil \x7b"
  , "\t\t\treturn err"
  , "\t\t\x7d"
  , "\t\x7d"
  , ""
  , "\t// Wait for all commands"
  , "\tfor _, cmd := range cmds \x7b"
  , "\t\tif err := cmd.Wait(); err != nil \x7b"
  , "\t\t\treturn err"
  , "\t\t\x7d"
  , "\t\x7d"
  , ""
  , "\treturn nil"
  , "\x7d"
  , ""
  , "func main() \x7b"
  , ""
  , "\t// read a line of input from the user"
  , "\treader := bufio.NewReader(os.Stdin)"
  , ""
  , "\tfor \x7b"
  , "\t\t// display the prompt"
  , "\t\tfmt.Print(\"> \")"
  , "\t\t// read the keyboard string"
  , "\t\tinput, _ := reader.ReadString(\x27\\n\x27)"
  , ""
  , "\t\tcommands, err := parseInput(input)"
  , "\t\tif err != nil \x7b"
  , "\t\t\tfmt.Println(err)"
  , "\t\t\tcontinue"
  , "\t\t\x7d"
  , ""
  , "\t\tif err := executePipeline(commands); err != nil \x7b"
  , "\t\t\tfmt.Println(err)"
  , "\t\t\x7d"
  , "\t\x7d"
  , "\x7d"
  , "```"
  , ""
  , "## 5. Handling Signals"
  , "We will now extend our shell to support handling signals. For our case we will only implement CTRL+C, and we"
  , "expect that it will interrupt the current running command, without interrupting our shell process itself."
  , ""
  , "When you press CTRL+C in a terminal, the operating system sends a SIGINT (interrupt signal) to the foreground process."
  , "In our shell, we want this behavior:"
  , "- If a command is running, CTRL+C should stop that command"
  , "- The shell itself should continue running and show a new prompt"
  , ""
  , "To implement this, we\x27ll use Go\x27s `context` package along with `os/signal`. Here\x27s how it works:"
  , ""
  , "1. **Create a signal channel**: We\x27ll listen for interrupt signals using `signal.Notify()`"
  , "2. **Use context for cancellation**: When CTRL+C is pressed, we cancel the context"
  , "3. **Pass context to commands**: Using `exec.CommandContext()` ensures the command respects the cancellation"
  , "4. **Clean up gracefully**: After the command finishes (or is interrupted), we continue the shell loop"
  , ""
  , "Here\x27s our shell with CTRL+C support"
  , ""
  , "```go"
  , "package main"
  , ""
  , "import ("
  , "\t\"bufio\""
  , "\t\"context\""
  , "\t\"errors\""
  , "\t\"fmt\""
  , "\t\"os\""
  , "\t\"os/exec\""
  , "\t\"os/signal\""
  , "\t\"strings\""
  , ")"
  , ""
  , "type Command struct \x7b"
  , "\tname string"
  , "\targs []string"
  , "\x7d"
  , ""
  , "func parseInput(input string) ([]Command, error) \x7b"
  , "\t// remove empty spaces from the input"
  , "\tinput = strings.TrimSpace(input)"
  , ""
  , "\t// return empty command slice if input is empty"
  , "\tif input == \"\" \x7b"
  , "\t\treturn []Command\x7b\x7d, nil"
  , "\t\x7d"
  , ""
  , "\t// split input by |"
  , "\tpipedInputs := strings.Split(input, \"|\")"
  , "\tcommands := make([]Command, 0, len(pipedInputs))"
  , ""
  , "\t// per each piped command identify command and args"
  , "\tfor _, pipedInput := range pipedInputs \x7b"
  , "\t\tpipedInput := strings.TrimSpace(pipedInput)"
  , "\t\tparts := strings.Fields(pipedInput)"
  , ""
  , "\t\tif len(parts) == 0 \x7b"
  , "\t\t\treturn []Command\x7b\x7d, fmt.Errorf(\"invalid input: %s\", pipedInput)"
  , "\t\t\x7d"
  , "\t\tcommand := parts[0]"
  , "\t\targs := parts[1:]"
  , "\t\tcommands = append(commands, Command\x7bcommand, args\x7d)"
  , "\t\x7d"
  , "\treturn commands, nil"
  , "\x7d"
  , ""
  , "// setupSignalHandler creates a context that will be cancelled when CTRL+C is pressed."
  , "// Returns the context and a cleanup function that should be deferred."
  , "func setupSignalHandler() (context.Context, context.CancelFunc) \x7b"
  , "\tctx, cancel := context.WithCancel(context.Background())"
  , ""
  , "\tsigChan := make(chan os.Signal, 1)"
  , "\tsignal.Notify(sigChan, os.Interrupt)"
  , ""
  , "\tgo func() \x7b"
  , "\t\t<-sigChan"
  , "\t\tcancel()"
  , "\t\x7d()"
  , ""
  , "\t// Return a wrapped cancel function that also stops signal notifications"
  , "\tcleanup := func() \x7b"
  , "\t\tsignal.Stop(sigChan)"
  , "\t\tcancel()"
  , "\t\x7d"
  , ""
  , "\treturn ctx, cleanup"
  , "\x7d"
  , ""
  , "// handleCommandError checks if an error is due to context cancellation (CTRL+C)."
  , "// If so, it prints a newline and returns nil. Otherwise, it returns the original error."
  , "func handleCommandError(ctx context.Context, err error) error \x7b"
  , "\tif err != nil && errors.Is(ctx.Err(), context.Canceled) \x7b"
  , "\t\tfmt.Println() // Print newline after ^C"
  , "\t\treturn nil    // Don\x27t treat ^C as an error"
  , "\t\x7d"
  , "\treturn err"
  , "\x7d"
  , ""
  , "// executeNotBuiltInCommand executes commands using the computer\x27s OS."
  , "func executeNotBuiltInCommand(command string, args []string) error \x7b"
  , "\tctx, cleanup := setupSignalHandler()"
  , "\tdefer cleanup()"
  , ""
  , "\tcmd := exec.CommandContext(ctx, command, args...)"
  , "\tcmd.Stdout = os.Stdout"
  , "\tcmd.Stderr = os.Stderr"
  , "\tcmd.Stdin = os.Stdin"
  , ""
  , "\terr := cmd.Run()"
  , "\treturn handleCommandError(ctx, err)"
  , "\x7d"
  , ""
  , "// executeCdCommand executes the \"cd\" built-in command to change directories."
  , "func executeCdCommand(args []string) error \x7b"
  , "\tvar path string"
  , "\tif len(args) == 0 \x7b // if no path is defined it defaults to $HOME"
  , "\t\tpath = os.Getenv(\"HOME\")"
  , "\t\x7d else \x7b"
  , "\t\tpath = args[0]"
  , "\t\x7d"
  , "\treturn os.Chdir(path)"
  , "\x7d"
  , ""
  , "// executeSingleCommand executes a single command. Built-in commands cannot be part of pipes."
  , "func executeSingleCommand(command Command) error \x7b"
  , "\tswitch command.name \x7b"
  , "\tcase \"\":"
  , "\t\treturn nil"
  , "\tcase \"exit\":"
  , "\t\tos.Exit(0)"
  , "\t\treturn nil"
  , "\tcase \"cd\":"
  , "\t\treturn executeCdCommand(command.args)"
  , "\tdefault:"
  , "\t\treturn executeNotBuiltInCommand(command.name, command.args)"
  , "\t\x7d"
  , "\x7d"
  , ""
  , "// executePipeline executes a series of piped commands."
  , "func executePipeline(commands []Command) error \x7b"
  , "\tif len(commands) == 0 \x7b"
  , "\t\treturn nil"
  , "\t\x7d"
  , "\tif len(commands) == 1 \x7b"
  , "\t\treturn executeSingleCommand(commands[0])"
  , "\t\x7d"
  , ""
  , "\t// Create context so it can be cancelled"
  , "\tctx, cleanup := setupSignalHandler()"
  , "\tdefer cleanup()"
  , ""
  , "\t// Check for built-in commands in pipeline"
  , "\tfor _, cmd := range commands \x7b"
  , "\t\tif cmd.name == \"cd\" || cmd.name == \"exit\" \x7b"
  , "\t\t\treturn fmt.Errorf(\"cannot use built-in command \x27%s\x27 in pipeline\", cmd.name)"
  , "\t\t\x7d"
  , "\t\x7d"
  , ""
  , "\t// create commands"
  , "\tvar cmds []*exec.Cmd //slice of pointers to exec.Cmd so we can modify them later"
  , "\tfor _, command := range commands \x7b"
  , "\t\tcmd := exec.CommandContext(ctx, command.name, command.args...)"
  , "\t\tcmds = append(cmds, cmd)"
  , "\t\x7d"
  , ""
  , "\t// Connect the output of each command to the input of the next command"
  , "\t// the last command has no \"next\" command to connect to"
  , "\tfor i := 0; i < len(cmds)-1; i++ \x7b"
  , "\t\tstdout, err := cmds[i].StdoutPipe()"
  , "\t\tif err != nil \x7b"
  , "\t\t\treturn err"
  , "\t\t\x7d"
  , "\t\tcmds[i+1].Stdin = stdout"
  , "\t\x7d"
  , ""
  , "\t// Set first command stdin and last command stdout to the terminal"
  , "\tcmds[0].Stdin = os.Stdin"
  , "\tcmds[len(cmds)-1].Stdout = os.Stdout"
  , "\tcmds[len(cmds)-1].Stderr = os.Stderr"
  , ""
  , "\t// Start all commands"
  , "\t// we use use Start(non-blocking) instead of Run(blocking), we need all cmds running in parallel so next command"
  , "\t// can read from the prev pipe"
  , "\tfor _, cmd := range cmds \x7b"
  , "\t\tif err := cmd.Start(); err != nil \x7b"
  , "\t\t\treturn err"
  , "\t\t\x7d"
  , "\t\x7d"
  , ""
  , "\t// Wait for all commands"
  , "\tfor _, cmd := range cmds \x7b"
  , "\t\tif err := cmd.Wait(); err != nil \x7b"
  , "\t\t\treturn handleCommandError(ctx, err)"
  , "\t\t\x7d"
  , "\t\x7d"
  , ""
  , "\treturn nil"
  , "\x7d"
  , ""
  , "func main() \x7b"
  , ""
  , "\t// read a line of input from the user"
  , "\treader := bufio.NewReader(os.Stdin)"
  , ""
  , "\tfor \x7b"
  , "\t\t// display the prompt"
  , "\t\tfmt.Print(\"> \")"
  , "\t\t// read the keyboard string"
  , "\t\tinput, _ := reader.ReadString(\x27\\n\x27)"
  , ""
  , "\t\tcommands, err := parseInput(input)"
  , "\t\tif err != nil \x7b"
  , "\t\t\tfmt.Println(err)"
  , "\t\t\tcontinue"
  , "\t\t\x7d"
  , ""
  , "\t\tif err := executePipeline(commands); err != nil \x7b"
  , "\t\t\tfmt.Println(err)"
  , "\t\t\x7d"
  , "\t\x7d"
  , "\x7d"
  , "```"
  , ""
  , "## 6. Support History"
  , "Our final feature to implement is command history support. This allows users to see all previously executed commands"
  , "by typing `history`."
  , ""
  , "In real shells like bash or zsh, you can press the up arrow to cycle through previous commands. While that requires"
  , "more complex terminal manipulation, we\x27ll implement a simpler version that stores commands in a file and displays them"
  , "when requested."
  , ""
  , "**How it works:**"
  , ""
  , "1. **History file**: Commands are saved to `~/.gocsh_history` in the user\x27s home directory"
  , "2. **Saving commands**: After each command executes successfully, we append it to the history file"
  , "3. **Displaying history**: When the user types `history`, we read and print all lines from the file"
  , "4. **Filtering**: We don\x27t save empty commands, `exit`, or the `history` command itself"
  , ""
  , "**Implementation details:**"
  , ""
  , "- `initHistory()`: Opens the history file for writing (creates it if it doesn\x27t exist)"
  , "- `saveHistory(input)`: Appends a command to the history file"
  , "- `displayHistory()`: Reads and prints all commands from the history file"
  , "- `shouldBeInHistory(commands)`: Determines if a command should be saved (filters out empty, exit, and history commands)"
  , "- `closeHistory()`: Properly closes the file when the shell exits"
  , ""
  , "This is our final shell implementation"
  , ""
  , "```go"
  , "package main"
  , ""
  , "import ("
  , "\t\"bufio\""
  , "\t\"context\""
  , "\t\"errors\""
  , "\t\"fmt\""
  , "\t\"os\""
  , "\t\"os/exec\""
  , "\t\"os/signal\""
  , "\t\"strings\""
  , ")"
  , ""
  , "var history_file = os.Getenv(\"HOME\") + \"/.gocsh_history\""
  , "var historyFile *os.File"
  , ""
  , "type Command struct \x7b"
  , "\tname string"
  , "\targs []string"
  , "\x7d"
  , ""
  , "func parseInput(input string) ([]Command, error) \x7b"
  , "\t// remove empty spaces from the input"
  , "\tinput = strings.TrimSpace(input)"
  , ""
  , "\t// return empty command slice if input is empty"
  , "\tif input == \"\" \x7b"
  , "\t\treturn []Command\x7b\x7d, nil"
  , "\t\x7d"
  , ""
  , "\t// split input by |"
  , "\tpipedInputs := strings.Split(input, \"|\")"
  , "\tcommands := make([]Command, 0, len(pipedInputs))"
  , ""
  , "\t// per each piped command identify command and args"
  , "\tfor _, pipedInput := range pipedInputs \x7b"
  , "\t\tpipedInput := strings.TrimSpace(pipedInput)"
  , "\t\tparts := strings.Fields(pipedInput)"
  , ""
  , "\t\tif len(parts) == 0 \x7b"
  , "\t\t\treturn []Command\x7b\x7d, fmt.Errorf(\"invalid input: %s\", pipedInput)"
  , "\t\t\x7d"
  , "\t\tcommand := parts[0]"
  , "\t\targs := parts[1:]"
  , "\t\tcommands = append(commands, Command\x7bcommand, args\x7d)"
  , "\t\x7d"
  , "\treturn commands, nil"
  , "\x7d"
  , ""
  , "func initHistory() error \x7b"
  , "\tvar err error"
  , "\thistoryFile, err = os.OpenFile(history_file, os.O_WRONLY|os.O_CREATE|os.O_APPEND, 0600)"
  , "\treturn err"
  , "\x7d"
  , ""
  , "func saveHistory(input string) error \x7b"
  , "\tif historyFile == nil \x7b"
  , "\t\treturn nil // History disabled"
  , "\t\x7d"
  , "\t_, err := historyFile.WriteString(input)"
  , "\treturn err"
  , "\x7d"
  , ""
  , "func closeHistory() \x7b"
  , "\tif historyFile != nil \x7b"
  , "\t\thistoryFile.Close()"
  , "\t\x7d"
  , "\x7d"
  , ""
  , "func displayHistory() error \x7b"
  , "\tfile, err := os.Open(history_file)"
  , "\tif err != nil \x7b"
  , "\t\treturn err"
  , "\t\x7d"
  , "\tdefer file.Close()"
  , ""
  , "\tscanner := bufio.NewScanner(file)"
  , "\tfor scanner.Scan() \x7b"
  , "\t\tfmt.Println(scanner.Text())"
  , "\t\x7d"
  , "\treturn scanner.Err()"
  , "\x7d"
  , ""
  , "func shouldBeInHistory(commands []Command) bool \x7b"
  , "\tif len(commands) == 0 \x7b"
  , "\t\treturn false // Empty commands should not be saved"
  , "\t\x7d"
  , "\tif len(commands) > 1 \x7b"
  , "\t\treturn true // Save piped commands to history"
  , "\t\x7d"
  , "\t// Don\x27t save \"history\" or \"exit\" commands"
  , "\treturn commands[0].name != \"history\" && commands[0].name != \"exit\""
  , ""
  , "\x7d"
  , ""
  , "// setupSignalHandler creates a context that will be cancelled when CTRL+C is pressed."
  , "// Returns the context and a cleanup function that should be deferred."
  , "func setupSignalHandler() (context.Context, context.CancelFunc) \x7b"
  , "\tctx, cancel := context.WithCancel(context.Background())"
  , ""
  , "\tsigChan := make(chan os.Signal, 1)"
  , "\tsignal.Notify(sigChan, os.Interrupt)"
  , ""
  , "\tgo func() \x7b"
  , "\t\t<-sigChan"
  , "\t\tcancel()"
  , "\t\x7d()"
  , ""
  , "\t// Return a wrapped cancel function that also stops signal notifications"
  , "\tcleanup := func() \x7b"
  , "\t\tsignal.Stop(sigChan)"
  , "\t\tcancel()"
  , "\t\x7d"
  , ""
  , "\treturn ctx, cleanup"
  , "\x7d"
  , ""
  , "// handleCommandError checks if an error is due to context cancellation (CTRL+C)."
  , "// If so, it prints a newline and returns nil. Otherwise, it returns the original error."
  , "func handleCommandError(ctx context.Context, err error) error \x7b"
  , "\tif err != nil && errors.Is(ctx.Err(), context.Canceled) \x7b"
  , "\t\tfmt.Println() // Print newline after ^C"
  , "\t\treturn nil    // Don\x27t treat ^C as an error"
  , "\t\x7d"
  , "\treturn err"
  , "\x7d"
  , ""
  , "// executeNotBuiltInCommand executes commands using the computer\x27s OS."
  , "func executeNotBuiltInCommand(command string, args []string) error \x7b"
  , "\tctx, cleanup := setupSignalHandler()"
  , "\tdefer cleanup()"
  , ""
  , "\tcmd := exec.CommandContext(ctx, command, args...)"
  , "\tcmd.Stdout = os.Stdout"
  , "\tcmd.Stderr = os.Stderr"
  , "\tcmd.Stdin = os.Stdin"
  , ""
  , "\terr := cmd.Run()"
  , "\treturn handleCommandError(ctx, err)"
  , "\x7d"
  , ""
  , "// executeCdCommand executes the \"cd\" built-in command to change directories."
  , "func executeCdCommand(args []string) error \x7b"
  , "\tvar path string"
  , "\tif len(args) == 0 \x7b // if no path is defined it defaults to $HOME"
  , "\t\tpath = os.Getenv(\"HOME\")"
  , "\t\x7d else \x7b"
  , "\t\tpath = args[0]"
  , "\t\x7d"
  , "\treturn os.Chdir(path)"
  , "\x7d"
  , ""
  , "// executeSingleCommand executes a single command. Built-in commands cannot be part of pipes."
  , "func executeSingleCommand(command Command) error \x7b"
  , "\tswitch command.name \x7b"
  , "\tcase \"\":"
  , "\t\treturn nil"
  , "\tcase \"exit\":"
  , "\t\tos.Exit(0)"
  , "\t\treturn nil"
  , "\tcase \"cd\":"
  , "\t\treturn executeCdCommand(command.args)"
  , "\tcase \"history\":"
  , "\t\treturn displayHistory()"
  , "\tdefault:"
  , "\t\treturn executeNotBuiltInCommand(command.name, command.args)"
  , "\t\x7d"
  , "\x7d"
  , ""
  , "// executePipeline executes a series of piped commands."
  , "func executePipeline(commands []Command) error \x7b"
  , "\tif len(commands) == 0 \x7b"
  , "\t\treturn nil"
  , "\t\x7d"
  , "\tif len(commands) == 1 \x7b"
  , "\t\treturn executeSingleCommand(commands[0])"
  , "\t\x7d"
  , ""
  , "\t// Create context so it can be cancelled"
  , "\tctx, cleanup := setupSignalHandler()"
  , "\tdefer cleanup()"
  , ""
  , "\t// Check for built-in commands in pipeline"
  , "\tfor _, cmd := range commands \x7b"
  , "\t\tif cmd.name == \"cd\" || cmd.name == \"exit\" \x7b"
  , "\t\t\treturn fmt.Errorf(\"cannot use built-in command \x27%s\x27 in pipeline\", cmd.name)"
  , "\t\t\x7d"
  , "\t\x7d"
  , ""
  , "\t// create commands"
  , "\tvar cmds []*exec.Cmd //slice of pointers to exec.Cmd so we can modify them later"
  , "\tfor _, command := range commands \x7b"
  , "\t\tcmd := exec.CommandContext(ctx, command.name, command.args...)"
  , "\t\tcmds = append(cmds, cmd)"
  , "\t\x7d"
  , ""
  , "\t// Connect the output of each command to the input of the next command"
  , "\t// the last command has no \"next\" command to connect to"
  , "\tfor i := 0; i < len(cmds)-1; i++ \x7b"
  , "\t\tstdout, err := cmds[i].StdoutPipe()"
  , "\t\tif err != nil \x7b"
  , "\t\t\treturn err"
  , "\t\t\x7d"
  , "\t\tcmds[i+1].Stdin = stdout"
  , "\t\x7d"
  , ""
  , "\t// Set first command stdin and last command stdout to the terminal"
  , "\tcmds[0].Stdin = os.Stdin"
  , "\tcmds[len(cmds)-1].Stdout = os.Stdout"
  , "\tcmds[len(cmds)-1].Stderr = os.Stderr"
  , ""
  , "\t// Start all commands"
  , "\t// we use use Start(non-blocking) instead of Run(blocking), we need all cmds running in parallel so next command"
  , "\t// can read from the prev pipe"
  , "\tfor _, cmd := range cmds \x7b"
  , "\t\tif err := cmd.Start(); err != nil \x7b"
  , "\t\t\treturn err"
  , "\t\t\x7d"
  , "\t\x7d"
  , ""
  , "\t// Wait for all commands"
  , "\tfor _, cmd := range cmds \x7b"
  , "\t\tif err := cmd.Wait(); err != nil \x7b"
  , "\t\t\treturn handleCommandError(ctx, err)"
  , "\t\t\x7d"
  , "\t\x7d"
  , ""
  , "\treturn nil"
  , "\x7d"
  , ""
  , "func main() \x7b"
  , "\t// Initialize history file"
  , "\tif err := initHistory(); err != nil \x7b"
  , "\t\tfmt.Fprintf(os.Stderr, \"Warning: could not open history: %v\\n\", err)"
  , "\t\x7d"
  , "\tdefer closeHistory()"
  , ""
  , "\t// read a line of input from the user"
  , "\treader := bufio.NewReader(os.Stdin)"
  , ""
  , "\tfor \x7b"
  , "\t\t// display the prompt"
  , "\t\tfmt.Print(\"> \")"
  , "\t\t// read the keyboard string"
  , "\t\tinput, _ := reader.ReadString(\x27\\n\x27)"
  , ""
  , "\t\t// parse input to Command"
  , "\t\tcommands, err := parseInput(input)"
  , "\t\tif err != nil \x7b"
  , "\t\t\tfmt.Println(err)"
  , "\t\t\tcontinue"
  , "\t\t\x7d"
  , ""
  , "\t\tif err := executePipeline(commands); err != nil \x7b"
  , "\t\t\tfmt.Println(err)"
  , "\t\t\x7d"
  , ""
  , "\t\t// save to history"
  , "\t\tif shouldBeInHistory(commands) \x7b"
  , "\t\t\tif err := saveHistory(input); err != nil \x7b"
  , "\t\t\t\tfmt.Fprintf(os.Stderr, \"Warning: could not write to history: %v\\n\", err)"
  , "\t\t\t\x7d"
  , "\t\t\x7d"
  , "\t\x7d"
  , ""
  , "\x7d"
  , ""
  , "```"
  , ""
  , ""
  , ""
  , ""
  , ""
  ]

/-- The "about" post (snapshot file `unnamed/part_000`). -/
def aboutDoc : ContentDocument :=
  { filePath := "unnamed/part_000", text := aboutText }

/-- The first version of the shell tutorial post. -/
def shellV1Doc : ContentDocument :=
  { filePath := "src/content/blog/build-your-own-shell-in-go.md", text := shellV1Text }

/-- The second version of the shell tutorial post (snapshot file
`unnamed/part_001`). -/
def shellV2Doc : ContentDocument :=
  { filePath := "unnamed/part_001", text := shellV2Text }

/-- The actual content store of the repository. -/
def contentStore : List ContentDocument := [aboutDoc, shellV1Doc, shellV2Doc]

/-! ## Concrete example inputs from the specification -/

/-- The configuration of the spec's worked example: base `/blog/`. -/
def helloCfg : SiteConfig := ⟨"", "/blog/", .static⟩

/-- The document of the spec's worked example: title `Hello`, publish date
`Dec 10 2025`, body `# Hi`, file name `hello.md`. -/
def helloDoc : ContentDocument :=
  ⟨"hello.md",
    ["---", "title: \x27Hello\x27", "pubDate: \x27Dec 10 2025\x27", "---", "", "# Hi"]⟩

/-- The first Go fenced code block of the shell tutorial post (its two stream-redirection lines). -/
def goFenceSmall : List String :=
  [ "    cmd.Stdout = os.Stdout"
  , "    cmd.Stderr = os.Stderr"
  ]

/-- The second Go fenced code block of the shell tutorial post (the full simplest-shell program). -/
def goFenceBig : List String :=
  [ "import ("
  , "\t\"bufio\""
  , "\t\"fmt\""
  , "\t\"os\""
  , "\t\"os/exec\""
  , "\t\"strings\""
  , ")"
  , ""
  , "func main() \x7b"
  , "\t// read a line of input from the user standard input"
  , "\treader := bufio.NewReader(os.Stdin)"
  , ""
  , "\tfor \x7b"
  , "\t\t// display the prompt"
  , "\t\tfmt.Print(\"> \")"
  , "\t\t// read the input"
  , "\t\tinput, _ := reader.ReadString(\x27\\n\x27)"
  , "\t\tinput = strings.TrimSpace(input)"
  , ""
  , "\t\tif input == \"exit\" \x7b"
  , "\t\t\tos.Exit(0)"
  , "\t\t\x7d"
  , "\t\t// run command"
  , "\t\tcmd := exec.Command(input)"
  , "\t\tcmd.Stdout = os.Stdout"
  , "\t\tcmd.Stderr = os.Stderr"
  , "\t\tcmd.Run()"
  , "\t\x7d"
  , "\x7d"
  ]

/-! ## Lemmas about the front-matter parser -/

theorem string_mk_data (s : String) : (⟨s.data⟩ : String) = s := by
  cases s
  rfl

theorem breakColon_some : ∀ {cs k rest : List Char},
    breakColon cs = some (k, rest) → ':' ∉ k ∧ cs = k ++ ':' :: rest := by
  intro cs
  induction cs with
  | nil => intro k rest h; simp [breakColon] at h
  | cons c cs ih =>
    intro k rest h
    by_cases hc : c = ':'
    · subst hc
      simp [breakColon] at h
      obtain ⟨hk, hr⟩ := h
      subst hk; subst hr
      simp
    · simp only [breakColon, if_neg hc] at h
      cases hbc : breakColon cs with
      | none => rw [hbc] at h; simp at h
      | some p =>
        rw [hbc] at h
        obtain ⟨k', rest'⟩ := p
        simp at h
        obtain ⟨hk, hr⟩ := h
        obtain ⟨hnot, hcs⟩ := ih hbc
        subst hk; subst hr
        constructor
        · intro hmem
          rcases List.mem_cons.mp hmem with h1 | h2
          · exact hc h1.symm
          · exact hnot h2
        · simp [hcs]

theorem breakColon_prepend : ∀ {k : List Char}, ':' ∉ k → ∀ rest,
    breakColon (k ++ ':' :: rest) = some (k, rest) := by
  intro k
  induction k with
  | nil => intro _ rest; simp [breakColon]
  | cons c cs ih =>
    intro hk rest
    have hc : c ≠ ':' := fun h => hk (h ▸ List.mem_cons_self c cs)
    have hcs : ':' ∉ cs := fun h => hk (List.mem_cons_of_mem c h)
    simp [breakColon, hc, ih hcs rest]

theorem parseKV_key_colonFree {l : String} {kv : String × String}
    (h : parseKV l = some kv) : ':' ∉ kv.1.data := by
  unfold parseKV at h
  cases hbc : breakColon l.data with
  | none => rw [hbc] at h; simp at h
  | some p =>
    rw [hbc] at h
    obtain ⟨k, rest⟩ := p
    simp at h
    obtain ⟨hfree, _⟩ := breakColon_some hbc
    rw [← h]
    simpa using hfree

theorem unquoteL_quote (v : List Char) :
    unquoteL ('\x27' :: (v ++ ['\x27'])) = v := by
  rw [unquoteL]
  simp [List.getLast?_concat, List.dropLast_concat]

theorem parseKV_kvLine (k v : String) (hk : ':' ∉ k.data) :
    parseKV (kvLine (k, v)) = some (k, v) := by
  unfold parseKV kvLine
  rw [breakColon_prepend hk]
  simp only [dropOneSpace, unquoteL_quote, string_mk_data]

theorem kvLine_getLast (kv : String × String) :
    (kvLine kv).data.getLast? = some '\x27' := by
  show (kv.1.data ++ ':' :: ' ' :: '\x27' :: (kv.2.data ++ ['\x27'])).getLast? = some '\x27'
  have : kv.1.data ++ ':' :: ' ' :: '\x27' :: (kv.2.data ++ ['\x27'])
      = (kv.1.data ++ ':' :: ' ' :: '\x27' :: kv.2.data) ++ ['\x27'] := by
    simp
  rw [this, List.getLast?_concat]

theorem kvLine_ne_delim (kv : String × String) : kvLine kv ≠ "---" := by
  intro h
  have hd : (kvLine kv).data.getLast? = ("---" : String).data.getLast? := by
    rw [h]
  rw [kvLine_getLast kv] at hd
  exact absurd hd (by decide)

theorem takeWhile_append_all {α} (p : α → Bool) (y : α) (ys xs : List α)
    (hy : p y = false) (hall : ∀ x ∈ xs, p x = true) :
    (xs ++ y :: ys).takeWhile p = xs := by
  induction xs with
  | nil => simp [List.takeWhile_cons, hy]
  | cons a as ih =>
    have ha := hall a (List.mem_cons_self a as)
    simp only [List.cons_append, List.takeWhile_cons, ha, if_true]
    rw [ih (fun x hx => hall x (List.mem_cons_of_mem a hx))]

theorem dropWhile_append_all {α} (p : α → Bool) (y : α) (ys xs : List α)
    (hy : p y = false) (hall : ∀ x ∈ xs, p x = true) :
    (xs ++ y :: ys).dropWhile p = y :: ys := by
  induction xs with
  | nil => simp [List.dropWhile_cons, hy]
  | cons a as ih =>
    have ha := hall a (List.mem_cons_self a as)
    simp only [List.cons_append, List.dropWhile_cons, ha, if_true]
    exact ih (fun x hx => hall x (List.mem_cons_of_mem a hx))

theorem parse_ok_inv {ls : List String} {entries : List (String × String)}
    {body : List String}
    (h : parseFrontMatterLines ls = .ok (entries, body)) :
    ∃ rest, ls = "---" :: rest ∧ "---" ∈ rest ∧
      entries = (rest.takeWhile neDelim).filterMap parseKV ∧
      body = (rest.dropWhile neDelim).tail ∧
      (lookupKey "title" entries).isSome = true := by
  cases ls with
  | nil => simp [parseFrontMatterLines] at h
  | cons l rest =>
    by_cases hl : l = "---"
    · subst hl
      by_cases hm : "---" ∈ rest
      · simp only [parseFrontMatterLines, List.head?_cons, List.tail_cons] at h
        rw [if_pos trivial, if_pos hm] at h
        cases hk : lookupKey "title" ((rest.takeWhile neDelim).filterMap parseKV) with
        | none => rw [hk] at h; simp at h
        | some t =>
          rw [hk] at h
          injection h with h2
          injection h2 with he hb
          refine ⟨rest, rfl, hm, he.symm, hb.symm, ?_⟩
          have hlk : lookupKey "title" entries = some t := by
            rw [← he]
            exact hk
          simp [hlk]
      · simp [parseFrontMatterLines, hm] at h
    · simp [parseFrontMatterLines, hl] at h

theorem entries_colonFree {ls : List String} {entries : List (String × String)}
    {body : List String}
    (h : parseFrontMatterLines ls = .ok (entries, body)) :
    ∀ kv ∈ entries, ':' ∉ kv.1.data := by
  obtain ⟨rest, _, _, he, _, _⟩ := parse_ok_inv h
  intro kv hkv
  rw [he] at hkv
  obtain ⟨l, _, hp⟩ := List.mem_filterMap.mp hkv
  exact parseKV_key_colonFree hp

theorem filterMap_kvLines {entries : List (String × String)}
    (hfree : ∀ kv ∈ entries, ':' ∉ kv.1.data) :
    (entries.map kvLine).filterMap parseKV = entries := by
  induction entries with
  | nil => rfl
  | cons kv rest ih =>
    have h1 : parseKV (kvLine kv) = some kv := by
      have := parseKV_kvLine kv.1 kv.2 (hfree kv (List.mem_cons_self kv rest))
      simpa using this
    simp only [List.map_cons, List.filterMap_cons, h1]
    rw [ih (fun x hx => hfree x (List.mem_cons_of_mem kv hx))]

/-- C7: parsing a valid content document's front matter, re-serializing the
resulting metadata mapping back into a delimiter-bounded block, and
reparsing that block yields the same metadata mapping as the first parse. -/
theorem c7_frontmatter_roundtrip (ls : List String)
    (entries : List (String × String)) (body : List String)
    (h : parseFrontMatterLines ls = .ok (entries, body)) :
    parseFrontMatterLines (serializeLines entries) = .ok (entries, []) := by
  have hfree := entries_colonFree h
  obtain ⟨rest, _, _, _, _, hsome⟩ := parse_ok_inv h
  obtain ⟨t, ht⟩ := Option.isSome_iff_exists.mp hsome
  have hmem : "---" ∈ entries.map kvLine ++ ["---"] :=
    List.mem_append_right _ (List.mem_singleton.mpr rfl)
  have hall : ∀ x ∈ entries.map kvLine, neDelim x = true := by
    intro x hx
    obtain ⟨kv, _, hkv⟩ := List.mem_map.mp hx
    simp [neDelim, ← hkv, kvLine_ne_delim kv]
  have hy : neDelim "---" = false := by decide
  have htake := takeWhile_append_all neDelim "---" [] (entries.map kvLine) hy hall
  have hdrop := dropWhile_append_all neDelim "---" [] (entries.map kvLine) hy hall
  show parseFrontMatterLines ("---" :: (entries.map kvLine ++ ["---"])) =
    .ok (entries, [])
  simp only [parseFrontMatterLines, List.head?_cons, List.tail_cons]
  rw [if_pos trivial, if_pos hmem, htake, filterMap_kvLines hfree, ht, hdrop]
  rfl

/-- Witness for C7: a concrete document whose front matter round-trips. -/
theorem c7_frontmatter_roundtrip_witness :
    parseFrontMatterLines
        (serializeLines [("title", "My Post")]) = .ok ([("title", "My Post")], []) :=
  c7_frontmatter_roundtrip
    ["---", "title: \x27My Post\x27", "---", "hello"]
    [("title", "My Post")] ["hello"] (by rfl)

/-- C4: the front-matter parser fails exactly when the opening delimiter is
present but no closing delimiter is found, or when the required field
`title` is absent; a document missing only the optional fields parses with
`description` defaulted to the empty string and `heroImage` to `none`; and
a document missing its closing delimiter yields a malformed-front-matter
error and no output file for that document. -/
theorem c4_parse_error_conditions :
    (∀ ls : List String, (parseFrontMatterLines ls).isOk = false ↔
      ((hasOpening ls ∧ ¬ hasClosing ls) ∨ titleAbsent ls)) ∧
    (parseFrontMatterLines
        ["---", "title: \x27T\x27", "pubDate: \x27Dec 10 2025\x27", "---", "body"] =
      .ok ([("title", "T"), ("pubDate", "Dec 10 2025")], ["body"]) ∧
     toMeta [("title", "T"), ("pubDate", "Dec 10 2025")] =
      some ⟨"T", "", "Dec 10 2025", none⟩) ∧
    (parseFrontMatterLines ["---", "title: \x27T\x27", "no closing"] =
      .error .missingClosingDelimiter ∧
     buildSite ⟨"", "/", .static⟩
        [⟨"broken.md", ["---", "title: \x27T\x27", "no closing"]⟩] =
      .error (.malformedFrontMatter "broken.md" .missingClosingDelimiter)) := by
  refine ⟨?_, ⟨by rfl, by rfl⟩, ⟨by rfl, by rfl⟩⟩
  intro ls
  by_cases ho : ls.head? = some "---"
  · by_cases hc : "---" ∈ ls.tail
    · unfold parseFrontMatterLines
      rw [if_pos ho, if_pos hc]
      cases hk : lookupKey "title" ((ls.tail.takeWhile neDelim).filterMap parseKV) with
      | some t =>
        simp [Except.isOk, Except.toBool, lookupKey, hasOpening, hasClosing, titleAbsent, headerOf, ho, hc, hk]
      | none =>
        simp [Except.isOk, Except.toBool, lookupKey, hasOpening, hasClosing, titleAbsent, headerOf, ho, hc, hk]
    · unfold parseFrontMatterLines
      rw [if_pos ho, if_neg hc]
      simp [Except.isOk, Except.toBool, lookupKey, hasOpening, hasClosing, ho, hc]
  · unfold parseFrontMatterLines
    rw [if_neg ho]
    simp [Except.isOk, Except.toBool, lookupKey, hasOpening, hasClosing, titleAbsent, headerOf, ho]

/-- C10: every document in the actual content store begins with a line
containing only `---`, carries `key: value` lines for all four keys
`title`, `description`, `pubDate` and `heroImage`, and has a matching
closing `---` line, so the missing-closing-delimiter error branch of the
front-matter parser is unreachable on this store; the about document's
`title` value is the empty string rather than absent. -/
theorem c10_content_store_wellformed :
    (∀ d ∈ contentStore,
      d.text.head? = some "---" ∧
      "---" ∈ d.text.tail ∧
      (∀ k ∈ ["title", "description", "pubDate", "heroImage"],
        k ∈ ((headerOf d.text).filterMap parseKV).map Prod.fst) ∧
      (parseFrontMatterLines d.text).isOk = true ∧
      parseFrontMatterLines d.text ≠ .error .missingClosingDelimiter) ∧
    lookupKey "title" ((headerOf aboutDoc.text).filterMap parseKV) = some "" := by
  constructor
  · decide
  · rfl

/-! ## Lemmas about the page renderer -/

theorem fenced_sublist (body : List String) :
    ∀ m : Bool, List.Sublist (fencedLines m body) (renderLines m body) := by
  induction body with
  | nil =>
    intro m
    cases m <;> simp [fencedLines, renderLines]
  | cons l ls ih =>
    intro m
    cases m with
    | false =>
      by_cases hf : isFence l = true
      · simp only [fencedLines, renderLines, hf, if_true]
        exact List.Sublist.cons _ (ih true)
      · simp only [fencedLines, renderLines, hf, if_false, Bool.false_eq_true]
        exact List.Sublist.cons _ (ih false)
    | true =>
      by_cases hf : isFence l = true
      · simp only [fencedLines, renderLines, hf, if_true]
        exact List.Sublist.cons _ (ih false)
      · simp only [fencedLines, renderLines, hf, if_false, Bool.false_eq_true]
        exact List.Sublist.cons₂ _ (ih true)

theorem joinNL_append (t : List String) :
    ∀ s : List String, s ≠ [] → t ≠ [] →
      joinNL (s ++ t) = joinNL s ++ "\n" ++ joinNL t := by
  intro s
  induction s with
  | nil => intro hs _; exact absurd rfl hs
  | cons a s' ih =>
    intro _ ht
    cases s' with
    | nil =>
      cases t with
      | nil => exact absurd rfl ht
      | cons b t' => simp [joinNL]
    | cons c s'' =>
      have h1 : joinNL ((a :: c :: s'') ++ t) = a ++ "\n" ++ joinNL ((c :: s'') ++ t) := by
        simp only [List.cons_append]
        rfl
      rw [h1, ih (by simp) ht]
      show _ = (a ++ "\n" ++ joinNL (c :: s'')) ++ "\n" ++ joinNL t
      simp [String.append_assoc]

theorem joinNL_infix {l1 l2 : List String} (h1 : l1 ≠ [])
    (h : List.IsInfix l1 l2) :
    List.IsInfix (joinNL l1).data (joinNL l2).data := by
  obtain ⟨s, t, rfl⟩ := h
  by_cases hs : s = []
  · subst hs
    by_cases ht : t = []
    · subst ht
      simp
    · rw [List.nil_append, joinNL_append t l1 h1 ht]
      refine ⟨[], "\n".data ++ (joinNL t).data, ?_⟩
      simp [String.data_append]
  · have hlt : l1 ++ t ≠ [] := by simp [h1]
    rw [List.append_assoc, joinNL_append (l1 ++ t) s hs hlt]
    by_cases ht : t = []
    · subst ht
      rw [List.append_nil]
      refine ⟨(joinNL s).data ++ "\n".data, [], ?_⟩
      simp [String.data_append]
    · rw [joinNL_append t l1 h1 ht]
      refine ⟨(joinNL s).data ++ "\n".data, "\n".data ++ (joinNL t).data, ?_⟩
      simp [String.data_append]

set_option maxRecDepth 40000 in
/-- C5: lines inside fenced code blocks survive rendering verbatim, in
order, for every document body; in particular the two Go code fences of
the shell tutorial post are exactly its fenced lines and their full text
occurs unaltered inside the rendered page's HTML. -/
theorem c5_fences_verbatim :
    (∀ (body : List String) (m : Bool),
      List.Sublist (fencedLines m body) (renderLines m body)) ∧
    fencedLines false (shellV1Text.drop 6) = goFenceSmall ++ goFenceBig ∧
    (renderDoc siteConfig shellV1Doc).html = htmlOf (shellV1Text.drop 6) ∧
    List.IsInfix (joinNL goFenceSmall).data
      (renderDoc siteConfig shellV1Doc).html.data ∧
    List.IsInfix (joinNL goFenceBig).data
      (renderDoc siteConfig shellV1Doc).html.data := by
  have h3 : (renderDoc siteConfig shellV1Doc).html = htmlOf (shellV1Text.drop 6) := by
    rfl
  refine ⟨fenced_sublist, by rfl, h3, ?_, ?_⟩
  · rw [h3]
    show List.IsInfix _ (joinNL (renderLines false (shellV1Text.drop 6))).data
    exact joinNL_infix (by decide) (by decide)
  · rw [h3]
    show List.IsInfix _ (joinNL (renderLines false (shellV1Text.drop 6))).data
    exact joinNL_infix (by decide) (by decide)

/-- C8: the spec's worked example: a document with title `Hello`, publish
date `Dec 10 2025` and body `# Hi`, built with base `/blog/`, produces
the single output path `/blog/hello/index.html` whose HTML contains
`<h1>Hi</h1>`. -/
theorem c8_hello_example :
    buildSite helloCfg [helloDoc] =
      .ok [⟨"/blog/hello/index.html", "\n<h1>Hi</h1>"⟩] ∧
    infixB "<h1>Hi</h1>".data "\n<h1>Hi</h1>".data = true :=
  ⟨by rfl, by rfl⟩

/-- C9 counterexample: the repository's configuration does not set the
base path to root `/`; it sets it to the repo-scoped subpath
`/daniela.veloz/`. -/
theorem c9_base_counterexample :
    siteConfig.basePath = "/daniela.veloz/" ∧ siteConfig.basePath ≠ "/" :=
  ⟨rfl, by decide⟩

/-- C9 (amended): the authoritative configuration of the snapshot
(`src/astro.config.mjs`) sets the base path to the repo-scoped subpath
`/daniela.veloz/` with static output, and that value normalizes to the
single path segment `daniela.veloz`. -/
theorem c9_base_amended :
    siteConfig = ⟨"https://daniela-veloz.github.io", "/daniela.veloz/", .static⟩ ∧
    normalizeBase siteConfig.basePath = ["daniela.veloz"] :=
  ⟨rfl, by rfl⟩

/-! ## Lemmas about the route generator -/

/-- No two adjacent slashes: the no-duplicate-slash property of a path,
read along consecutive characters. -/
def noAdjSlash (a b : Char) : Prop := ¬(a = '/' ∧ b = '/')

theorem splitSlash_ne_nil : ∀ cs : List Char, splitSlash cs ≠ [] := by
  intro cs
  induction cs with
  | nil => simp [splitSlash]
  | cons c cs ih =>
    by_cases hc : c = '/'
    · simp [splitSlash, hc]
    · simp only [splitSlash, if_neg hc]
      cases hsp : splitSlash cs with
      | nil => simp
      | cons p ps => simp

theorem splitSlash_noSlash : ∀ (cs : List Char), ∀ seg ∈ splitSlash cs, '/' ∉ seg := by
  intro cs
  induction cs with
  | nil =>
    intro seg hseg
    simp only [splitSlash, List.mem_singleton] at hseg
    subst hseg
    simp
  | cons c cs ih =>
    intro seg hseg
    by_cases hc : c = '/'
    · subst hc
      simp [splitSlash] at hseg
      rcases hseg with h | h
      · subst h; simp
      · exact ih seg h
    · simp only [splitSlash, if_neg hc] at hseg
      cases hsp : splitSlash cs with
      | nil => exact absurd hsp (splitSlash_ne_nil cs)
      | cons p ps =>
        rw [hsp] at hseg
        rcases List.mem_cons.mp hseg with h | h
        · subst h
          intro hmem
          rcases List.mem_cons.mp hmem with h1 | h2
          · exact hc h1.symm
          · exact ih p (hsp ▸ List.mem_cons_self p ps) h2
        · exact ih seg (hsp ▸ List.mem_cons_of_mem p h)

theorem mem_stripExtL {c : Char} {cs : List Char} (h : c ∈ stripExtL cs) : c ∈ cs := by
  unfold stripExtL at h
  by_cases hd : '.' ∈ cs
  · rw [if_pos hd] at h
    rw [List.mem_reverse] at h
    have h2 : c ∈ cs.reverse.dropWhile (fun x => x ≠ '.') :=
      List.drop_subset 1 _ h
    have h3 : c ∈ cs.reverse := (List.dropWhile_sublist _).subset h2
    exact List.mem_reverse.mp h3
  · rw [if_neg hd] at h
    exact h

theorem lastSeg_noSlash (cs : List Char) : '/' ∉ lastSeg cs := by
  unfold lastSeg
  cases hl : (splitSlash cs).getLast? with
  | none => simp
  | some seg =>
    simp only [Option.getD_some]
    exact splitSlash_noSlash cs seg (List.mem_of_mem_getLast? hl)

theorem slug_noSlash (p : String) : '/' ∉ (slugOf p).data := by
  show '/' ∉ stripExtL (lastSeg p.data)
  intro h
  exact lastSeg_noSlash p.data (mem_stripExtL h)

theorem normalizeBase_good (b : String) :
    ∀ s ∈ normalizeBase b, s ≠ "" ∧ '/' ∉ s.data := by
  intro s hs
  unfold normalizeBase at hs
  obtain ⟨seg, hseg, hmk⟩ := List.mem_map.mp hs
  have hf := List.mem_filter.mp hseg
  constructor
  · intro he
    rw [← hmk] at he
    have hnil : seg = [] := by
      have := congrArg String.data he
      simpa using this
    rw [hnil] at hf
    simp at hf
  · rw [← hmk]
    exact splitSlash_noSlash b.data seg hf.1

theorem pathChars_append (a b : List String) :
    pathChars (a ++ b) = pathChars a ++ pathChars b := by
  simp [pathChars]

theorem chain_noSlash {cs : List Char} (h : '/' ∉ cs) :
    List.Chain' noAdjSlash cs := by
  induction cs with
  | nil => simp
  | cons c cs ih =>
    rw [List.chain'_cons']
    constructor
    · intro b _ hab
      exact h (hab.1 ▸ List.mem_cons_self c cs)
    · exact ih (fun hm => h (List.mem_cons_of_mem c hm))

theorem chain_pathChars :
    ∀ segs : List String, (∀ s ∈ segs, s ≠ "" ∧ '/' ∉ s.data) →
      List.Chain' noAdjSlash (pathChars segs) := by
  intro segs
  induction segs with
  | nil => intro _; simp [pathChars]
  | cons s rest ih =>
    intro hall
    have hs := hall s (List.mem_cons_self s rest)
    have hrest := ih (fun x hx => hall x (List.mem_cons_of_mem s hx))
    have hstep : pathChars (s :: rest) = ('/' :: s.data) ++ pathChars rest := by
      simp [pathChars]
    rw [hstep, List.chain'_append]
    refine ⟨?_, hrest, ?_⟩
    · rw [List.chain'_cons']
      constructor
      · intro b hb hab
        exact hs.2 (hab.2 ▸ List.mem_of_mem_head? hb)
      · exact chain_noSlash hs.2
    · intro x hx y _ hxy
      cases hsd : s.data with
      | nil =>
        exact hs.1 (by have := congrArg String.mk hsd; rwa [string_mk_data s] at this)
      | cons d ds =>
        rw [hsd, List.getLast?_cons_cons] at hx
        have hmem : x ∈ d :: ds := List.mem_of_mem_getLast? hx
        rw [← hsd] at hmem
        exact hs.2 (hxy.1 ▸ hmem)

/-- C1: for every content document and site configuration, the route
generator produces the canonical output path built from the normalized
base path, the slug (the file name with its extension stripped) and
`index.html`: the normalized base has only nonempty slash-free segments,
for any configured base value, and the whole path starts with a single
slash, ends with `/slug/index.html`, and contains no duplicate slashes. -/
theorem c1_route_canonical (cfg : SiteConfig) (d : ContentDocument)
    (h : slugOf d.filePath ≠ "") :
    routePath cfg d =
      pathString (normalizeBase cfg.basePath ++ [slugOf d.filePath, "index.html"]) ∧
    (∀ s ∈ normalizeBase cfg.basePath, s ≠ "" ∧ '/' ∉ s.data) ∧
    (routePath cfg d).data.head? = some '/' ∧
    List.IsSuffix ('/' :: (slugOf d.filePath).data ++ '/' :: "index.html".data)
      (routePath cfg d).data ∧
    List.Chain' noAdjSlash (routePath cfg d).data := by
  have hgood : ∀ s ∈ routeSegments cfg d, s ≠ "" ∧ '/' ∉ s.data := by
    intro s hs
    unfold routeSegments at hs
    rcases List.mem_append.mp hs with hb | htail
    · exact normalizeBase_good cfg.basePath s hb
    · rcases List.mem_cons.mp htail with h1 | h2
      · subst h1
        exact ⟨h, slug_noSlash d.filePath⟩
      · rw [List.mem_singleton.mp h2]
        exact ⟨by decide, by decide⟩
  have hdata : (routePath cfg d).data = pathChars (routeSegments cfg d) := rfl
  refine ⟨rfl, normalizeBase_good cfg.basePath, ?_, ?_, ?_⟩
  · rw [hdata]
    unfold routeSegments
    cases normalizeBase cfg.basePath with
    | nil => simp [pathChars]
    | cons a l => simp [pathChars]
  · rw [hdata]
    unfold routeSegments
    rw [pathChars_append]
    refine ⟨pathChars (normalizeBase cfg.basePath), ?_⟩
    simp [pathChars]
  · rw [hdata]
    exact chain_pathChars (routeSegments cfg d) hgood

/-- Witness for C1: the route of the spec's worked example has a nonempty
slug and its path has no duplicate slashes. -/
theorem c1_route_canonical_witness :
    slugOf helloDoc.filePath ≠ "" ∧
    List.Chain' noAdjSlash (routePath helloCfg helloDoc).data :=
  ⟨by decide, (c1_route_canonical helloCfg helloDoc (by decide)).2.2.2.2⟩

/-! ## Lemmas about the site builder -/

theorem renderDoc_path (cfg : SiteConfig) (d : ContentDocument) :
    (renderDoc cfg d).outputPath = routePath cfg d := by
  unfold renderDoc
  cases parseFrontMatterLines d.text with
  | error e => rfl
  | ok v =>
    obtain ⟨en, bo⟩ := v
    rfl

theorem renderDoc_html_eq (cfg1 cfg2 : SiteConfig) (d : ContentDocument) :
    (renderDoc cfg1 d).html = (renderDoc cfg2 d).html := by
  unfold renderDoc
  cases parseFrontMatterLines d.text with
  | error e => rfl
  | ok v =>
    obtain ⟨en, bo⟩ := v
    rfl

theorem buildGo_ok_map (cfg : SiteConfig) :
    ∀ (docs : List ContentDocument) (seen : List String) (pages : List RenderedPage),
      buildGo cfg seen docs = .ok pages → pages = docs.map (renderDoc cfg) := by
  intro docs
  induction docs with
  | nil =>
    intro seen pages h
    simp only [buildGo] at h
    injection h with h2
    simp [← h2]
  | cons d ds ih =>
    intro seen pages h
    simp only [buildGo] at h
    cases hp : parseFrontMatterLines d.text with
    | error e =>
      rw [hp] at h
      simp at h
    | ok v =>
      rw [hp] at h
      simp only [] at h
      by_cases hmem : slugOf d.filePath ∈ seen
      · rw [if_pos hmem] at h
        simp at h
      · rw [if_neg hmem] at h
        cases hb : buildGo cfg (slugOf d.filePath :: seen) ds with
        | error e =>
          rw [hb] at h
          simp at h
        | ok pages' =>
          rw [hb] at h
          simp only [] at h
          injection h with h2
          rw [← h2, List.map_cons, ih _ _ hb]

theorem buildGo_ok_nodup (cfg : SiteConfig) :
    ∀ (docs : List ContentDocument) (seen : List String) (pages : List RenderedPage),
      buildGo cfg seen docs = .ok pages →
        (docs.map (fun d => slugOf d.filePath)).Nodup ∧
        ∀ r ∈ docs.map (fun d => slugOf d.filePath), r ∉ seen := by
  intro docs
  induction docs with
  | nil =>
    intro seen pages _
    exact ⟨List.nodup_nil, by simp⟩
  | cons d ds ih =>
    intro seen pages h
    simp only [buildGo] at h
    cases hp : parseFrontMatterLines d.text with
    | error e =>
      rw [hp] at h
      simp at h
    | ok v =>
      rw [hp] at h
      simp only [] at h
      by_cases hmem : slugOf d.filePath ∈ seen
      · rw [if_pos hmem] at h
        simp at h
      · rw [if_neg hmem] at h
        cases hb : buildGo cfg (slugOf d.filePath :: seen) ds with
        | error e =>
          rw [hb] at h
          simp at h
        | ok pages' =>
          obtain ⟨hnd, hout⟩ := ih _ _ hb
          constructor
          · rw [List.map_cons]
            refine List.Nodup.cons ?_ hnd
            intro hcontra
            exact hout _ hcontra (List.mem_cons_self _ _)
          · intro r hr
            rcases List.mem_cons.mp hr with h1 | h2
            · rw [h1]
              exact hmem
            · intro hseen
              exact hout r h2 (List.mem_cons_of_mem _ hseen)

theorem buildGo_error_shape (cfg : SiteConfig) :
    ∀ (docs : List ContentDocument) (seen : List String) (e : BuildError),
      (∀ d ∈ docs, (parseFrontMatterLines d.text).isOk = true) →
      buildGo cfg seen docs = .error e →
      ∃ f, e = .duplicateRoute f ∧ f ∈ docs.map (fun d => d.filePath) := by
  intro docs
  induction docs with
  | nil =>
    intro seen e _ h
    simp [buildGo] at h
  | cons d ds ih =>
    intro seen e hok h
    have hpd := hok d (List.mem_cons_self d ds)
    simp only [buildGo] at h
    cases hp : parseFrontMatterLines d.text with
    | error e' =>
      rw [hp] at hpd
      simp [Except.isOk, Except.toBool] at hpd
    | ok v =>
      rw [hp] at h
      simp only [] at h
      by_cases hmem : slugOf d.filePath ∈ seen
      · rw [if_pos hmem] at h
        injection h with h2
        exact ⟨d.filePath, h2.symm, List.mem_cons_self _ _⟩
      · rw [if_neg hmem] at h
        cases hb : buildGo cfg (slugOf d.filePath :: seen) ds with
        | error e' =>
          rw [hb] at h
          simp only [] at h
          injection h with h2
          obtain ⟨f, hf, hfm⟩ :=
            ih _ e' (fun x hx => hok x (List.mem_cons_of_mem d hx)) hb
          exact ⟨f, h2 ▸ hf, List.mem_cons_of_mem _ hfm⟩
        | ok pages' =>
          rw [hb] at h
          simp at h

theorem routeString_inj (cfg : SiteConfig) :
    Function.Injective
      (fun s => pathString (normalizeBase cfg.basePath ++ [s, "index.html"])) := by
  intro s1 s2 heq
  have hd : pathChars (normalizeBase cfg.basePath ++ [s1, "index.html"]) =
      pathChars (normalizeBase cfg.basePath ++ [s2, "index.html"]) :=
    congrArg String.data heq
  rw [pathChars_append, pathChars_append] at hd
  have hd2 := List.append_cancel_left hd
  simp only [pathChars, List.map_cons, List.map_nil, List.flatten_cons,
    List.flatten_nil, List.append_nil, List.cons_append] at hd2
  apply String.ext
  injection hd2 with hhead htail
  rwa [List.append_left_inj] at htail

theorem buildGo_ok_exists (cfg : SiteConfig) :
    ∀ (docs : List ContentDocument) (seen : List String),
      (∀ d ∈ docs, (parseFrontMatterLines d.text).isOk = true) →
      (docs.map (fun d => slugOf d.filePath)).Nodup →
      (∀ r ∈ docs.map (fun d => slugOf d.filePath), r ∉ seen) →
      buildGo cfg seen docs = .ok (docs.map (renderDoc cfg)) := by
  intro docs
  induction docs with
  | nil =>
    intro seen _ _ _
    rfl
  | cons d ds ih =>
    intro seen hok hnd hseen
    have hpd := hok d (List.mem_cons_self d ds)
    simp only [buildGo]
    cases hp : parseFrontMatterLines d.text with
    | error e =>
      rw [hp] at hpd
      simp [Except.isOk, Except.toBool] at hpd
    | ok v =>
      have hmem : slugOf d.filePath ∉ seen :=
        hseen _ (by simp)
      rw [if_neg hmem]
      have hrec := ih (slugOf d.filePath :: seen)
        (fun x hx => hok x (List.mem_cons_of_mem d hx))
        ((List.nodup_cons.mp (by simpa using hnd)).2)
        ?_
      · rw [hrec]
        rfl
      · intro r hr hrs
        rcases List.mem_cons.mp hrs with h1 | h2
        · exact (List.nodup_cons.mp (by simpa using hnd)).1 (h1 ▸ hr)
        · exact hseen r (by simp [hr]) h2

/-- C2: a content store whose documents all parse and whose slugs are
pairwise distinct builds successfully into exactly one rendered page per
document; and on any successful build, the pages are exactly one rendered
page per document, each derived deterministically from that one document
and the site configuration, with pairwise distinct output paths
(one-to-one correspondence). -/
theorem c2_one_page_per_document (cfg : SiteConfig) (docs : List ContentDocument) :
    ((∀ d ∈ docs, (parseFrontMatterLines d.text).isOk = true) →
     (docs.map (fun d => slugOf d.filePath)).Nodup →
     buildSite cfg docs = .ok (docs.map (renderDoc cfg))) ∧
    (∀ pages, buildSite cfg docs = .ok pages →
      pages = docs.map (renderDoc cfg) ∧
      (pages.map (fun p => p.outputPath)).Nodup) := by
  constructor
  · intro hok hnd
    exact buildGo_ok_exists cfg docs [] hok hnd (by simp)
  · intro pages h
    have hmap := buildGo_ok_map cfg docs [] pages h
    refine ⟨hmap, ?_⟩
    have hnd := (buildGo_ok_nodup cfg docs [] pages h).1
    have h1 : pages.map (fun p => p.outputPath) =
        (docs.map (fun d => slugOf d.filePath)).map
          (fun s => pathString (normalizeBase cfg.basePath ++ [s, "index.html"])) := by
      rw [hmap, List.map_map, List.map_map]
      apply List.map_eq_map_iff.mpr
      intro d _
      show (renderDoc cfg d).outputPath = _
      rw [renderDoc_path]
      rfl
    rw [h1]
    exact List.Nodup.map (routeString_inj cfg) hnd

/-- Witness for C2: a one-document store that parses builds into exactly
its one rendered page. -/
theorem c2_one_page_per_document_witness :
    buildSite ⟨"", "/w/", .static⟩
        [⟨"w2.md", ["---", "title: \x27W\x27", "---", "hi"]⟩] =
      .ok ([(⟨"w2.md", ["---", "title: \x27W\x27", "---", "hi"]⟩ : ContentDocument)].map
        (renderDoc ⟨"", "/w/", .static⟩)) :=
  (c2_one_page_per_document ⟨"", "/w/", .static⟩
    [⟨"w2.md", ["---", "title: \x27W\x27", "---", "hi"]⟩]).1 (by decide) (by decide)

/-- C3: if two documents of the store produce the same slug and every
document parses, the build aborts with a `DuplicateRoute` error naming an
offending file, and produces no output at all. -/
theorem c3_duplicate_route (cfg : SiteConfig) (docs : List ContentDocument)
    (i j : Nat) (hi : i < docs.length) (hj : j < docs.length) (hij : i ≠ j)
    (hok : ∀ d ∈ docs, (parseFrontMatterLines d.text).isOk = true)
    (hslug : slugOf (docs.get ⟨i, hi⟩).filePath = slugOf (docs.get ⟨j, hj⟩).filePath) :
    ∃ f, buildSite cfg docs = .error (.duplicateRoute f) ∧
      f ∈ docs.map (fun d => d.filePath) ∧
      ∀ pages, buildSite cfg docs ≠ .ok pages := by
  have hnotok : ∀ pages, buildSite cfg docs ≠ .ok pages := by
    intro pages hok2
    have hnd := (buildGo_ok_nodup cfg docs [] pages hok2).1
    have hlen : docs.length = (docs.map (fun d => slugOf d.filePath)).length := by
      simp
    have hgi : (docs.map (fun d => slugOf d.filePath)).get ⟨i, hlen ▸ hi⟩ =
        slugOf (docs.get ⟨i, hi⟩).filePath := by
      rw [List.get_map]
    have hgj : (docs.map (fun d => slugOf d.filePath)).get ⟨j, hlen ▸ hj⟩ =
        slugOf (docs.get ⟨j, hj⟩).filePath := by
      rw [List.get_map]
    have heq : (docs.map (fun d => slugOf d.filePath)).get ⟨i, hlen ▸ hi⟩ =
        (docs.map (fun d => slugOf d.filePath)).get ⟨j, hlen ▸ hj⟩ := by
      rw [hgi, hgj]
      exact hslug
    have := hnd.get_inj_iff.mp heq
    exact hij (congrArg Fin.val this)
  cases hbs : buildSite cfg docs with
  | ok pages => exact absurd hbs (hnotok pages)
  | error e =>
    obtain ⟨f, hf, hmem⟩ := buildGo_error_shape cfg docs [] e hok hbs
    refine ⟨f, by rw [hf], hmem, ?_⟩
    intro pages hcon
    cases hcon

/-- Witness for C3: two documents with the same file name make the build
abort with a duplicate-route error. -/
theorem c3_duplicate_route_witness :
    ∃ f, buildSite ⟨"", "/w/", .static⟩
        [⟨"dup.md", ["---", "title: \x27A\x27", "---"]⟩,
         ⟨"dup.md", ["---", "title: \x27B\x27", "---"]⟩] =
      .error (.duplicateRoute f) ∧
      f ∈ ([⟨"dup.md", ["---", "title: \x27A\x27", "---"]⟩,
            (⟨"dup.md", ["---", "title: \x27B\x27", "---"]⟩ : ContentDocument)]).map
        (fun d => d.filePath) ∧
      ∀ pages, buildSite ⟨"", "/w/", .static⟩
        [⟨"dup.md", ["---", "title: \x27A\x27", "---"]⟩,
         ⟨"dup.md", ["---", "title: \x27B\x27", "---"]⟩] ≠ .ok pages :=
  c3_duplicate_route ⟨"", "/w/", .static⟩
    [⟨"dup.md", ["---", "title: \x27A\x27", "---"]⟩,
     ⟨"dup.md", ["---", "title: \x27B\x27", "---"]⟩]
    0 1 (by decide) (by decide) (by decide) (by decide) (by rfl)

/-- Pages built under two configurations correspond: equal content, and
output paths that differ only in the normalized base-path prefix. -/
def pageRel (cfg1 cfg2 : SiteConfig) (a b : RenderedPage) : Prop :=
  a.html = b.html ∧ ∃ suf,
    a.outputPath = pathString (normalizeBase cfg1.basePath ++ suf) ∧
    b.outputPath = pathString (normalizeBase cfg2.basePath ++ suf)

theorem buildGo_base_indep (cfg1 cfg2 : SiteConfig) :
    ∀ (docs : List ContentDocument) (seen : List String),
      (∃ e, buildGo cfg1 seen docs = .error e ∧ buildGo cfg2 seen docs = .error e) ∨
      (∃ p1 p2, buildGo cfg1 seen docs = .ok p1 ∧ buildGo cfg2 seen docs = .ok p2 ∧
        List.Forall₂ (pageRel cfg1 cfg2) p1 p2) := by
  intro docs
  induction docs with
  | nil =>
    intro seen
    right
    exact ⟨[], [], rfl, rfl, List.Forall₂.nil⟩
  | cons d ds ih =>
    intro seen
    cases hp : parseFrontMatterLines d.text with
    | error e =>
      left
      exact ⟨.malformedFrontMatter d.filePath e,
        by simp [buildGo, hp], by simp [buildGo, hp]⟩
    | ok v =>
      by_cases hmem : slugOf d.filePath ∈ seen
      · left
        exact ⟨.duplicateRoute d.filePath,
          by simp [buildGo, hp, hmem], by simp [buildGo, hp, hmem]⟩
      · rcases ih (slugOf d.filePath :: seen) with ⟨e, h1, h2⟩ | ⟨p1, p2, h1, h2, hrel⟩
        · left
          exact ⟨e, by simp [buildGo, hp, hmem, h1], by simp [buildGo, hp, hmem, h2]⟩
        · right
          refine ⟨renderDoc cfg1 d :: p1, renderDoc cfg2 d :: p2,
            by simp [buildGo, hp, hmem, h1], by simp [buildGo, hp, hmem, h2],
            List.Forall₂.cons ⟨renderDoc_html_eq cfg1 cfg2 d,
              [slugOf d.filePath, "index.html"], ?_, ?_⟩ hrel⟩
          · rw [renderDoc_path]
            rfl
          · rw [renderDoc_path]
            rfl

/-- C6: for two configurations that differ only in the base path, a build
of the same content store either fails with the identical error under
both, or succeeds under both with pagewise identical HTML content and
output paths differing only in the normalized base-path prefix. -/
theorem c6_base_changes_only_prefixes (cfg1 cfg2 : SiteConfig)
    (docs : List ContentDocument)
    (hsite : cfg1.siteUrl = cfg2.siteUrl) (hmode : cfg1.outputMode = cfg2.outputMode) :
    ((buildSite cfg1 docs).isOk = (buildSite cfg2 docs).isOk) ∧
    (∀ e, buildSite cfg1 docs = .error e ↔ buildSite cfg2 docs = .error e) ∧
    (∀ p1 p2, buildSite cfg1 docs = .ok p1 → buildSite cfg2 docs = .ok p2 →
      p1.length = p2.length ∧ List.Forall₂ (pageRel cfg1 cfg2) p1 p2) := by
  rcases buildGo_base_indep cfg1 cfg2 docs [] with ⟨e, h1, h2⟩ | ⟨q1, q2, h1, h2, hrel⟩
  · have hb1 : buildSite cfg1 docs = .error e := h1
    have hb2 : buildSite cfg2 docs = .error e := h2
    refine ⟨by rw [hb1, hb2], ?_, ?_⟩
    · intro e'
      rw [hb1, hb2]
    · intro p1 p2 hc1 _
      rw [hb1] at hc1
      cases hc1
  · have hb1 : buildSite cfg1 docs = .ok q1 := h1
    have hb2 : buildSite cfg2 docs = .ok q2 := h2
    refine ⟨by rw [hb1, hb2]; rfl, ?_, ?_⟩
    · intro e'
      rw [hb1, hb2]
      constructor
      · intro hc
        cases hc
      · intro hc
        cases hc
    · intro p1 p2 hc1 hc2
      rw [hb1] at hc1
      rw [hb2] at hc2
      injection hc1 with hq1
      injection hc2 with hq2
      subst hq1
      subst hq2
      exact ⟨hrel.length_eq, hrel⟩

/-- Witness for C6: two configurations differing only in base, on a
one-document store, succeed together. -/
theorem c6_base_changes_only_prefixes_witness :
    ((buildSite ⟨"u", "/a/", .static⟩
        [⟨"w6.md", ["---", "title: \x27W\x27", "---", "hi"]⟩]).isOk =
     (buildSite ⟨"u", "/b/", .static⟩
        [⟨"w6.md", ["---", "title: \x27W\x27", "---", "hi"]⟩]).isOk) :=
  (c6_base_changes_only_prefixes ⟨"u", "/a/", .static⟩ ⟨"u", "/b/", .static⟩
    [⟨"w6.md", ["---", "title: \x27W\x27", "---", "hi"]⟩] rfl rfl).1

end StaticBlog
